import Mathlib

/-!
Verification development for the `errai` ID3v2 metadata parser.

The Rust sources are embedded shallowly: byte slices become `List Nat`
(each element a byte value `< 256`), machine integers become `Nat` with
explicit `% 2 ^ w` at the points where the Rust code can wrap, fallible
functions return an explicit result type, and a `panic!` in the source is
modelled as a dedicated result constructor carrying the message.
-/

namespace Errai

/-- Fields of an ID3v2 tag (`error.rs`, `TagField`). -/
inductive TagField where
  | identifier
  | version
  | extSize
  | extFlagSize
  | extFlagData
  deriving DecidableEq, Repr

/-- The types of errors that may occur (`error.rs`, `ErrorKind`). -/
inductive ErrorKind where
  | io
  | int
  | invalidField (field : TagField)
  | invalidVersion
  | invalidFrameId
  | invalidBitFlag
  | invalidFrameData
  deriving DecidableEq, Repr

/-- Result of running a piece of Rust code: a value, a returned `Error`
(identified by its `ErrorKind`), or a `panic!` with the given message. -/
inductive Ret (α : Type) where
  | ok (value : α)
  | err (kind : ErrorKind)
  | panics (msg : String)
  deriving DecidableEq, Repr

/-- The version of an ID3 tag (`types/version.rs`). -/
inductive Version where
  | id3v11
  | id3v12
  | id3v22
  | id3v23
  | id3v24
  deriving DecidableEq, Repr

/-- `utils::decode_u35_unsync`: the input is the list of the five bytes of
the `[u8; 5]` array (the final wildcard is unreachable for actual
arguments).  The result type in the source is `u32`, so the contribution
of the first byte (shifted left by 28) wraps modulo `2 ^ 32`; the later
contributions cannot exceed `u32` for byte-sized inputs. -/
def decode_u35_unsync (bytes : List Nat) : Nat :=
  match bytes with
  | [b0, b1, b2, b3, b4] =>
    ((b0 <<< 28) % 2 ^ 32) ||| (b1 <<< 21) ||| (b2 <<< 14) ||| (b3 <<< 7) ||| b4
  | _ => 0

/-- `utils::decode_u28_unsync` on the list of the four bytes of the
`[u8; 4]` input array. -/
def decode_u28_unsync (bytes : List Nat) : Nat :=
  match bytes with
  | [b0, b1, b2, b3] => (b0 <<< 21) ||| (b1 <<< 14) ||| (b2 <<< 7) ||| b3
  | _ => 0

/-- `utils::decode_u24` on the list of the three bytes of the `[u8; 3]`
input array. -/
def decode_u24 (bytes : List Nat) : Nat :=
  match bytes with
  | [b0, b1, b2] => (b0 <<< 16) ||| (b1 <<< 8) ||| b2
  | _ => 0

/-- `utils::is_frame_id`: every byte is in `A-Z` or `0-9`. -/
def is_frame_id (input : List Nat) : Bool :=
  input.all fun b => (65 ≤ b && b ≤ 90) || (48 ≤ b && b ≤ 57)

/-- `utils::is_latin1`: every byte is in the range `0x20-0xFF`. -/
def is_latin1 (input : List Nat) : Bool :=
  input.all fun b => 32 ≤ b && b ≤ 255

/-- `utils::is_null`: every byte is `0x00`. -/
def is_null (input : List Nat) : Bool :=
  input.all fun b => b == 0

/-- Spec-side encoder for 28-bit synchsafe integers: the low 28 bits of
`n`, split into four 7-bit groups, most significant first. -/
def encode28 (n : Nat) : List Nat :=
  [(n >>> 21) &&& 127, (n >>> 14) &&& 127, (n >>> 7) &&& 127, n &&& 127]

/-- Spec-side encoder for 35-bit synchsafe integers: five 7-bit groups,
most significant first. -/
def encode35 (n : Nat) : List Nat :=
  [(n >>> 28) &&& 127, (n >>> 21) &&& 127, (n >>> 14) &&& 127,
   (n >>> 7) &&& 127, n &&& 127]

/-- Spec-side encoder for 24-bit big-endian integers. -/
def encode24 (n : Nat) : List Nat :=
  [(n >>> 16) &&& 255, (n >>> 8) &&& 255, n &&& 255]

theorem and_127_eq_mod (x : Nat) : x &&& 127 = x % 128 :=
  Nat.and_pow_two_sub_one_eq_mod x 7

theorem and_255_eq_mod (x : Nat) : x &&& 255 = x % 256 :=
  Nat.and_pow_two_sub_one_eq_mod x 8

theorem lor_mul_two_pow_add {k y : Nat} (x : Nat) (hy : y < 2 ^ k) :
    (2 ^ k * x) ||| y = 2 ^ k * x + y :=
  (Nat.mul_add_lt_is_or hy x).symm

theorem decode_u28_unsync_eq_sum (b0 b1 b2 b3 : Nat)
    (h1 : b1 < 128) (h2 : b2 < 128) (h3 : b3 < 128) :
    decode_u28_unsync [b0, b1, b2, b3] =
      b0 * 2 ^ 21 + b1 * 2 ^ 14 + b2 * 2 ^ 7 + b3 := by
  show (b0 <<< 21) ||| (b1 <<< 14) ||| (b2 <<< 7) ||| b3 = _
  rw [Nat.lor_assoc, Nat.lor_assoc]
  rw [Nat.shiftLeft_eq, Nat.shiftLeft_eq, Nat.shiftLeft_eq]
  rw [Nat.mul_comm b2 (2 ^ 7), lor_mul_two_pow_add b2 (by omega)]
  rw [Nat.mul_comm b1 (2 ^ 14), lor_mul_two_pow_add b1 (by nlinarith)]
  rw [Nat.mul_comm b0 (2 ^ 21), lor_mul_two_pow_add b0 (by nlinarith)]
  ring

theorem decode_u24_eq_sum (b0 b1 b2 : Nat)
    (h1 : b1 < 256) (h2 : b2 < 256) :
    decode_u24 [b0, b1, b2] = b0 * 2 ^ 16 + b1 * 2 ^ 8 + b2 := by
  show (b0 <<< 16) ||| (b1 <<< 8) ||| b2 = _
  rw [Nat.lor_assoc]
  rw [Nat.shiftLeft_eq, Nat.shiftLeft_eq]
  rw [Nat.mul_comm b1 (2 ^ 8), lor_mul_two_pow_add b1 (by omega)]
  rw [Nat.mul_comm b0 (2 ^ 16), lor_mul_two_pow_add b0 (by nlinarith)]
  ring

theorem decode_u35_unsync_eq_sum (b0 b1 b2 b3 b4 : Nat)
    (h0 : b0 < 16) (h1 : b1 < 128) (h2 : b2 < 128) (h3 : b3 < 128)
    (h4 : b4 < 128) :
    decode_u35_unsync [b0, b1, b2, b3, b4] =
      b0 * 2 ^ 28 + b1 * 2 ^ 21 + b2 * 2 ^ 14 + b3 * 2 ^ 7 + b4 := by
  show ((b0 <<< 28) % 2 ^ 32) ||| (b1 <<< 21) ||| (b2 <<< 14) |||
      (b3 <<< 7) ||| b4 = _
  rw [Nat.lor_assoc, Nat.lor_assoc, Nat.lor_assoc]
  rw [Nat.shiftLeft_eq, Nat.shiftLeft_eq, Nat.shiftLeft_eq, Nat.shiftLeft_eq]
  rw [Nat.mod_eq_of_lt (by nlinarith)]
  rw [Nat.mul_comm b3 (2 ^ 7), lor_mul_two_pow_add b3 (by omega)]
  rw [Nat.mul_comm b2 (2 ^ 14), lor_mul_two_pow_add b2 (by nlinarith)]
  rw [Nat.mul_comm b1 (2 ^ 21), lor_mul_two_pow_add b1 (by nlinarith)]
  rw [Nat.mul_comm b0 (2 ^ 28), lor_mul_two_pow_add b0 (by nlinarith)]
  ring

theorem and_127_lt (x : Nat) : x &&& 127 < 128 := by
  rw [and_127_eq_mod]
  omega

/-- C6 (amended).  The synchsafe and fixed-width decoders invert their
encoders on the ranges the `u32` result type can represent:
`decode_u28_unsync (encode28 n) = n` for `n < 2 ^ 28`,
`decode_u24 (encode24 n) = n` for `n < 2 ^ 24`, and
`decode_u35_unsync (encode35 n) = n` for `n < 2 ^ 32` (not `2 ^ 35`: the
source returns `u32`, so the top three bits of a 35-bit value are lost). -/
theorem C6_synchsafe_roundtrips (n : Nat) :
    (n < 2 ^ 28 → decode_u28_unsync (encode28 n) = n) ∧
    (n < 2 ^ 24 → decode_u24 (encode24 n) = n) ∧
    (n < 2 ^ 32 → decode_u35_unsync (encode35 n) = n) := by
  refine ⟨fun h => ?_, fun h => ?_, fun h => ?_⟩
  · rw [encode28,
      decode_u28_unsync_eq_sum _ _ _ _ (and_127_lt _) (and_127_lt _)
        (and_127_lt _)]
    simp only [and_127_eq_mod, Nat.shiftRight_eq_div_pow]
    omega
  · rw [encode24, decode_u24_eq_sum _ _ _ (by rw [and_255_eq_mod]; omega)
      (by rw [and_255_eq_mod]; omega)]
    simp only [and_255_eq_mod, Nat.shiftRight_eq_div_pow]
    omega
  · rw [encode35,
      decode_u35_unsync_eq_sum _ _ _ _ _
        (by rw [and_127_eq_mod, Nat.shiftRight_eq_div_pow]; omega)
        (and_127_lt _) (and_127_lt _) (and_127_lt _) (and_127_lt _)]
    simp only [and_127_eq_mod, Nat.shiftRight_eq_div_pow]
    omega

/-- C6 counterexample.  At `n = 2 ^ 32` (which is `< 2 ^ 35`), decoding
the synchsafe encoding of `n` does not give back `n`: the `u32` result
type truncates the value to `0`. -/
theorem C6_counterexample :
    2 ^ 32 < 2 ^ 35 ∧ decode_u35_unsync (encode35 (2 ^ 32)) ≠ 2 ^ 32 := by
  decide

theorem C6_witness :
    decode_u28_unsync (encode28 200) = 200 ∧
      decode_u24 (encode24 70000) = 70000 ∧
      decode_u35_unsync (encode35 4000000000) = 4000000000 :=
  ⟨(C6_synchsafe_roundtrips 200).1 (by norm_num),
    (C6_synchsafe_roundtrips 70000).2.1 (by norm_num),
    (C6_synchsafe_roundtrips 4000000000).2.2 (by norm_num)⟩

/-! Result monad plumbing for sequential Rust code. -/

def Ret.bind {α β : Type} : Ret α → (α → Ret β) → Ret β
  | .ok value, f => f value
  | .err kind, _ => .err kind
  | .panics msg, _ => .panics msg

instance : Monad Ret where
  pure := Ret.ok
  bind := Ret.bind

/-! `types/slice.rs`: a `Slice` is a borrowed region of bytes, embedded as
`List Nat`. -/

/-- `Slice::skip`: advance by `count` bytes.  The source clamps the index
with `count.min(self.len() - 1)`, so on a non-empty slice the result is
never empty (for an empty slice the subtraction underflows in Rust; the
`Nat` truncated subtraction used here yields `drop 0`, and all uses below
guard for emptiness first, as the iterator does). -/
def Slice.skip (s : List Nat) (count : Nat) : List Nat :=
  s.drop (min count (s.length - 1))

/-- `Slice::take`: a subslice of up to `count` bytes. -/
def Slice.take (s : List Nat) (count : Nat) : List Nat :=
  s.take (min count s.length)

/-- `Slice::view`: `count` bytes offset by `start`, via `skip` then `take`. -/
def Slice.view (s : List Nat) (start count : Nat) : List Nat :=
  Slice.take (Slice.skip s start) count

/-- Modelled from the spec: `Slice::until_nul` is referenced by
`Decoder::until_nul` but its definition is not among the provided source
files.  Spec 4.3: the prefix up to (exclusive) the first `0x00`,
saturating to the full remaining slice if no terminator is found. -/
def Slice.until_nul (s : List Nat) : List Nat :=
  s.takeWhile fun b => b ≠ 0

/-- Modelled from the spec: `Slice::until_nul2` is referenced by
`Decoder::until_nul2` but its definition is not among the provided source
files.  Spec 4.3: the prefix up to the first `0x00 0x00` pair on an even
boundary, saturating to the full remaining slice. -/
def Slice.until_nul2 : List Nat → List Nat
  | 0 :: 0 :: _ => []
  | b0 :: b1 :: rest => b0 :: b1 :: Slice.until_nul2 rest
  | rest => rest

/-! `traits/read.rs` primitives over an in-memory byte list.  A failed
`read_exact` surfaces as an I/O error (`ErrorKind::IO`). -/

/-- `ReadExt::read_array`: `n` bytes plus the remaining input. -/
def read_array (n : Nat) (s : List Nat) : Ret (List Nat × List Nat) :=
  if n ≤ s.length then .ok (s.take n, s.drop n) else .err .io

/-- `ReadExt::read_u8`. -/
def read_u8 : List Nat → Ret (Nat × List Nat)
  | b :: rest => .ok (b, rest)
  | [] => .err .io

/-- Big-endian `u16` from the two bytes read by `ReadExt::read_u16`. -/
def u16_be (bytes : List Nat) : Nat :=
  match bytes with
  | [b0, b1] => (b0 <<< 8) ||| b1
  | _ => 0

/-- Big-endian `u32` from the four bytes read by `ReadExt::read_u32`. -/
def u32_be (bytes : List Nat) : Nat :=
  match bytes with
  | [b0, b1, b2, b3] => (b0 <<< 24) ||| (b1 <<< 16) ||| (b2 <<< 8) ||| b3
  | _ => 0

/-- `ReadExt::read_u16`. -/
def read_u16 (s : List Nat) : Ret (Nat × List Nat) := do
  let (bytes, rest) ← read_array 2 s
  pure (u16_be bytes, rest)

/-- `ReadExt::read_u32`. -/
def read_u32 (s : List Nat) : Ret (Nat × List Nat) := do
  let (bytes, rest) ← read_array 4 s
  pure (u32_be bytes, rest)

/-- `ReadExt::read_u24`. -/
def read_u24 (s : List Nat) : Ret (Nat × List Nat) := do
  let (bytes, rest) ← read_array 3 s
  pure (decode_u24 bytes, rest)

/-- `ReadExt::read_u28_unsync`. -/
def read_u28_unsync (s : List Nat) : Ret (Nat × List Nat) := do
  let (bytes, rest) ← read_array 4 s
  pure (decode_u28_unsync bytes, rest)

/-- `FrameId::try_from`: accept the bytes when `is_frame_id` holds,
otherwise `ErrorKind::InvalidFrameId`. -/
def FrameId.try_from (bytes : List Nat) : Ret (List Nat) :=
  if is_frame_id bytes then .ok bytes else .err .invalidFrameId

/-- `NonZeroU32::try_from`: zero maps to a `TryFromIntError`, which the
crate converts to `ErrorKind::Int`. -/
def NonZeroU32.try_from (n : Nat) : Ret Nat :=
  if n = 0 then .err .int else .ok n

/-! `frame/v22.rs` -/

/-- A parsed ID3v2.2 frame (`FrameV2`). -/
structure FrameV2 where
  identifier : List Nat
  descriptor : Nat
  frame_data : List Nat
  deriving DecidableEq, Repr

/-- `FrameV2::SIZE`: frame header size in bytes. -/
def FrameV2.SIZE : Nat := 6

/-- `FrameV2::total_size`. -/
def FrameV2.total_size (f : FrameV2) : Nat :=
  FrameV2.SIZE + f.descriptor

/-- `FrameV2::from_slice`. -/
def FrameV2.from_slice (slice : List Nat) : Ret (Option FrameV2) := do
  let (idBytes, r1) ← read_array 3 slice
  let identifier ← FrameId.try_from idBytes
  let (rawDesc, _r2) ← read_u24 r1
  let descriptor ← NonZeroU32.try_from rawDesc
  let frame_data := Slice.view slice FrameV2.SIZE descriptor
  pure (some { identifier, descriptor, frame_data })

/-! `frame/v23.rs` -/

/-- `FrameV3Extra`: optional extra header data selected by the flags. -/
structure FrameV3Extra where
  comp : Option Nat
  encr : Option Nat
  grid : Option Nat
  deriving DecidableEq, Repr

/-- `FrameV3Extra::size` in bytes. -/
def FrameV3Extra.size (e : FrameV3Extra) : Nat :=
  (if e.comp.isSome then 4 else 0) + (if e.encr.isSome then 1 else 0) +
    (if e.grid.isSome then 1 else 0)

/-- ID3v2.3 frame flag masks (`FrameV3Flags`). -/
def FrameV3Flags.COMPRESSION : Nat := 0x0080

def FrameV3Flags.ENCRYPTION : Nat := 0x0040

def FrameV3Flags.GROUPING_IDENTITY : Nat := 0x0020

/-- `FrameV3Extra::from_reader`. -/
def FrameV3Extra.from_reader (flags : Nat) (s : List Nat) :
    Ret (FrameV3Extra × List Nat) := do
  let mut0 : FrameV3Extra := ⟨none, none, none⟩
  let (mut1, s1) ←
    if flags &&& FrameV3Flags.COMPRESSION = FrameV3Flags.COMPRESSION then do
      let (v, rest) ← read_u32 s
      pure ({ mut0 with comp := some v }, rest)
    else
      pure (mut0, s)
  let (mut2, s2) ←
    if flags &&& FrameV3Flags.ENCRYPTION = FrameV3Flags.ENCRYPTION then do
      let (v, rest) ← read_u8 s1
      pure ({ mut1 with encr := some v }, rest)
    else
      pure (mut1, s1)
  if flags &&& FrameV3Flags.GROUPING_IDENTITY = FrameV3Flags.GROUPING_IDENTITY
  then do
    let (v, rest) ← read_u8 s2
    pure ({ mut2 with grid := some v }, rest)
  else
    pure (mut2, s2)

/-- A parsed ID3v2.3 frame (`FrameV3`). -/
structure FrameV3 where
  identifier : List Nat
  descriptor : Nat
  flag_bytes : Nat
  extra_data : FrameV3Extra
  frame_data : List Nat
  deriving DecidableEq, Repr

/-- `FrameV3::SIZE`. -/
def FrameV3.SIZE : Nat := 10

/-- `FrameV3::total_size`. -/
def FrameV3.total_size (f : FrameV3) : Nat :=
  FrameV3.SIZE + f.descriptor

/-- `FrameV3::from_slice`.  The byte count of the content window is the
Rust expression `descriptor - extra size` on `usize`, embedded with
truncated `Nat` subtraction. -/
def FrameV3.from_slice (slice : List Nat) : Ret (Option FrameV3) := do
  let (idBytes, r1) ← read_array 4 slice
  let identifier ← FrameId.try_from idBytes
  let (rawDesc, r2) ← read_u32 r1
  let descriptor ← NonZeroU32.try_from rawDesc
  let (flag_bytes, r3) ← read_u16 r2
  let (extra_data, _r4) ← FrameV3Extra.from_reader flag_bytes r3
  let frame_data :=
    Slice.take (Slice.skip slice (FrameV3.SIZE + extra_data.size))
      (descriptor - extra_data.size)
  pure (some { identifier, descriptor, flag_bytes, extra_data, frame_data })

/-! `frame/v24.rs` -/

/-- `FrameV4Extra`: optional extra header data selected by the flags. -/
structure FrameV4Extra where
  grid : Option Nat
  encr : Option Nat
  dlen : Option Nat
  deriving DecidableEq, Repr

/-- `FrameV4Extra::size` in bytes. -/
def FrameV4Extra.size (e : FrameV4Extra) : Nat :=
  (if e.grid.isSome then 1 else 0) + (if e.encr.isSome then 1 else 0) +
    (if e.dlen.isSome then 4 else 0)

/-- ID3v2.4 frame flag masks (`FrameV4Flags`). -/
def FrameV4Flags.GROUPING_IDENTITY : Nat := 0x0040

def FrameV4Flags.COMPRESSION : Nat := 0x0008

def FrameV4Flags.ENCRYPTION : Nat := 0x0004

def FrameV4Flags.UNSYNCHRONISATION : Nat := 0x0002

def FrameV4Flags.DATA_LENGTH_INDICATOR : Nat := 0x0001

/-- `FrameV4Extra::from_reader`: grouping byte, then the compression flag
marks the data-length indicator as required, the encryption byte, an
unimplemented-unsynchronisation `panic!`, and finally the data-length
indicator (read as a plain `u32`) or an `InvalidBitFlag` error when it is
required but absent. -/
def FrameV4Extra.from_reader (flags : Nat) (s : List Nat) :
    Ret (FrameV4Extra × List Nat) := do
  let mut0 : FrameV4Extra := ⟨none, none, none⟩
  let (mut1, s1) ←
    if flags &&& FrameV4Flags.GROUPING_IDENTITY = FrameV4Flags.GROUPING_IDENTITY
    then do
      let (v, rest) ← read_u8 s
      pure ({ mut0 with grid := some v }, rest)
    else
      pure (mut0, s)
  let requireDlen : Bool :=
    flags &&& FrameV4Flags.COMPRESSION = FrameV4Flags.COMPRESSION
  let (mut2, s2) ←
    if flags &&& FrameV4Flags.ENCRYPTION = FrameV4Flags.ENCRYPTION then do
      let (v, rest) ← read_u8 s1
      pure ({ mut1 with encr := some v }, rest)
    else
      pure (mut1, s1)
  if flags &&& FrameV4Flags.UNSYNCHRONISATION = FrameV4Flags.UNSYNCHRONISATION
  then
    .panics "TODO: Handle UNSYNCHRONISATION - V4"
  else if flags &&& FrameV4Flags.DATA_LENGTH_INDICATOR =
      FrameV4Flags.DATA_LENGTH_INDICATOR then do
    let (v, rest) ← read_u32 s2
    pure ({ mut2 with dlen := some v }, rest)
  else if requireDlen then
    .err .invalidBitFlag
  else
    pure (mut2, s2)

/-- A parsed ID3v2.4 frame (`FrameV4`). -/
structure FrameV4 where
  identifier : List Nat
  descriptor : Nat
  flag_bytes : Nat
  extra_data : FrameV4Extra
  frame_data : List Nat
  deriving DecidableEq, Repr

/-- `FrameV4::SIZE`. -/
def FrameV4.SIZE : Nat := 10

/-- `FrameV4::total_size`. -/
def FrameV4.total_size (f : FrameV4) : Nat :=
  FrameV4.SIZE + f.descriptor

/-- `FrameV4::from_slice`. -/
def FrameV4.from_slice (slice : List Nat) : Ret (Option FrameV4) := do
  let (idBytes, r1) ← read_array 4 slice
  let identifier ← FrameId.try_from idBytes
  let (rawDesc, r2) ← read_u28_unsync r1
  let descriptor ← NonZeroU32.try_from rawDesc
  let (flag_bytes, r3) ← read_u16 r2
  let (extra_data, _r4) ← FrameV4Extra.from_reader flag_bytes r3
  let frame_data :=
    Slice.take (Slice.skip slice (FrameV4.SIZE + extra_data.size))
      (descriptor - extra_data.size)
  pure (some { identifier, descriptor, flag_bytes, extra_data, frame_data })

/-! `frame/any.rs` -/

/-- A parsed ID3v2 frame of any version (`DynFrame`). -/
inductive DynFrame where
  | v2 (inner : FrameV2)
  | v3 (inner : FrameV3)
  | v4 (inner : FrameV4)
  deriving DecidableEq, Repr

/-- `DynFrame::total_size`. -/
def DynFrame.total_size : DynFrame → Nat
  | .v2 inner => inner.total_size
  | .v3 inner => inner.total_size
  | .v4 inner => inner.total_size

/-- `DynFrame::identifier_slice`. -/
def DynFrame.identifier_slice : DynFrame → List Nat
  | .v2 inner => inner.identifier
  | .v3 inner => inner.identifier
  | .v4 inner => inner.identifier

/-- `DynFrame::frame_data`. -/
def DynFrame.frame_data : DynFrame → List Nat
  | .v2 inner => inner.frame_data
  | .v3 inner => inner.frame_data
  | .v4 inner => inner.frame_data

/-- `DynFrame::from_slice`. -/
def DynFrame.from_slice (version : Version) (slice : List Nat) :
    Ret (Option DynFrame) :=
  match version with
  | .id3v11 => .err .invalidVersion
  | .id3v12 => .err .invalidVersion
  | .id3v22 => do
    let frame ← FrameV2.from_slice slice
    pure (frame.map .v2)
  | .id3v23 => do
    let frame ← FrameV3.from_slice slice
    pure (frame.map .v3)
  | .id3v24 => do
    let frame ← FrameV4.from_slice slice
    pure (frame.map .v4)

/-! `id3v2/iter.rs` -/

/-- One item yielded by `FrameIter` (Rust `Result<DynFrame>`). -/
inductive FrameItem where
  | frame (f : DynFrame)
  | failure (e : ErrorKind)
  deriving DecidableEq, Repr

/-- `FrameIter::next`: returns the yielded item (`none` when iteration
stops) together with the updated buffer. -/
def FrameIter.next (version : Version) (buffer : List Nat) :
    Ret (Option FrameItem × List Nat) :=
  if buffer.isEmpty then
    .ok (none, buffer)
  else
    match DynFrame.from_slice version buffer with
    | .ok none => .ok (none, [])
    | .ok (some frame) =>
      .ok (some (.frame frame), Slice.skip buffer frame.total_size)
    | .err error => .ok (some (.failure error), [])
    | .panics msg => .panics msg

/-- Run `FrameIter` to completion, collecting every yielded item.  `fuel`
bounds the number of iterator steps; exhausting it is reported as a
distinct outcome so that no theorem can mistake an unfinished run for a
completed one. -/
def FrameIter.items (fuel : Nat) (version : Version) (buffer : List Nat) :
    Ret (List FrameItem) :=
  match fuel with
  | 0 => .panics "out of fuel"
  | fuel + 1 =>
    match FrameIter.next version buffer with
    | .ok (none, _) => .ok []
    | .ok (some item, buffer2) => do
      let rest ← FrameIter.items fuel version buffer2
      pure (item :: rest)
    | .err error => .err error
    | .panics msg => .panics msg

/-! `decode/encoding.rs` and the string model.  A Rust `str` is embedded
as its UTF-8 byte sequence; a `Cow<str>` records whether the bytes are
borrowed from the input or owned by the decoder. -/

/-- Valid types of string encoding (`Encoding`). -/
inductive Encoding where
  | latin1
  | utf16
  | utf16be
  | utf8
  deriving DecidableEq, Repr

/-- A `Cow<'_, str>`, carrying the UTF-8 bytes of the string. -/
inductive CowStr where
  | borrowed (bytes : List Nat)
  | owned (bytes : List Nat)
  deriving DecidableEq, Repr

/-- The string content of a `Cow<'_, str>`. -/
def CowStr.bytes : CowStr → List Nat
  | .borrowed bytes => bytes
  | .owned bytes => bytes

/-- A `Cow<'_, Slice>`. -/
inductive CowSlice where
  | borrowed (bytes : List Nat)
  | owned (bytes : List Nat)
  deriving DecidableEq, Repr

/-- UTF-8 encoding of a single code point (`char` pushed onto a Rust
`String`). -/
def utf8Encode (cp : Nat) : List Nat :=
  if cp < 0x80 then
    [cp]
  else if cp < 0x800 then
    [0xC0 ||| (cp >>> 6), 0x80 ||| (cp &&& 63)]
  else if cp < 0x10000 then
    [0xE0 ||| (cp >>> 12), 0x80 ||| ((cp >>> 6) &&& 63), 0x80 ||| (cp &&& 63)]
  else
    [0xF0 ||| (cp >>> 18), 0x80 ||| ((cp >>> 12) &&& 63),
     0x80 ||| ((cp >>> 6) &&& 63), 0x80 ||| (cp &&& 63)]

/-- Is `b` a UTF-8 continuation byte (`0x80-0xBF`)? -/
def utf8Cont (b : Nat) : Bool :=
  0x80 ≤ b && b ≤ 0xBF

/-- UTF-8 validity of a byte sequence (`core::str::from_utf8` success). -/
def utf8Valid : List Nat → Bool
  | [] => true
  | b :: rest =>
    if b ≤ 0x7F then
      utf8Valid rest
    else if 0xC2 ≤ b && b ≤ 0xDF then
      match rest with
      | c1 :: rest1 => utf8Cont c1 && utf8Valid rest1
      | [] => false
    else if b = 0xE0 then
      match rest with
      | c1 :: c2 :: rest2 =>
        (0xA0 ≤ c1 && c1 ≤ 0xBF) && utf8Cont c2 && utf8Valid rest2
      | _ => false
    else if (0xE1 ≤ b && b ≤ 0xEC) || b = 0xEE || b = 0xEF then
      match rest with
      | c1 :: c2 :: rest2 => utf8Cont c1 && utf8Cont c2 && utf8Valid rest2
      | _ => false
    else if b = 0xED then
      match rest with
      | c1 :: c2 :: rest2 =>
        (0x80 ≤ c1 && c1 ≤ 0x9F) && utf8Cont c2 && utf8Valid rest2
      | _ => false
    else if b = 0xF0 then
      match rest with
      | c1 :: c2 :: c3 :: rest3 =>
        (0x90 ≤ c1 && c1 ≤ 0xBF) && utf8Cont c2 && utf8Cont c3 &&
          utf8Valid rest3
      | _ => false
    else if 0xF1 ≤ b && b ≤ 0xF3 then
      match rest with
      | c1 :: c2 :: c3 :: rest3 =>
        utf8Cont c1 && utf8Cont c2 && utf8Cont c3 && utf8Valid rest3
      | _ => false
    else if b = 0xF4 then
      match rest with
      | c1 :: c2 :: c3 :: rest3 =>
        (0x80 ≤ c1 && c1 ≤ 0x8F) && utf8Cont c2 && utf8Cont c3 &&
          utf8Valid rest3
      | _ => false
    else
      false

/-- `encoding.rs` `decode_latin1`: bytes in `0x20-0xFF` are reused
directly as a borrowed string; otherwise each byte is lifted to the code
point of the same value and collected into an owned string. -/
def decode_latin1 (slice : List Nat) : CowStr :=
  if is_latin1 slice then
    .borrowed slice
  else
    .owned (slice.map utf8Encode).flatten

/-- `encoding.rs` `decode_utf8`. -/
def decode_utf8 (slice : List Nat) : Ret CowStr :=
  if utf8Valid slice then .ok (.borrowed slice) else .err .invalidFrameData

/-- `u16::from_be_bytes`. -/
def u16_from_be (b0 b1 : Nat) : Nat :=
  (b0 <<< 8) ||| b1

/-- `u16::from_le_bytes`. -/
def u16_from_le (b0 b1 : Nat) : Nat :=
  (b1 <<< 8) ||| b0

/-- `slice.chunks_exact(2)` mapped through a two-byte conversion; a
trailing odd byte is dropped, as `chunks_exact` drops the remainder. -/
def chunksExact2 (convert : Nat → Nat → Nat) : List Nat → List Nat
  | b0 :: b1 :: rest => convert b0 b1 :: chunksExact2 convert rest
  | _ => []

/-- `char::decode_utf16` over a list of code units, stopping at the first
surrogate error as the loop in `decode_utf16` does. -/
def decodeUtf16Units : List Nat → Ret (List Nat)
  | [] => .ok []
  | u :: rest =>
    if 0xD800 ≤ u ∧ u ≤ 0xDBFF then
      match rest with
      | l :: rest2 =>
        if 0xDC00 ≤ l ∧ l ≤ 0xDFFF then do
          let tail ← decodeUtf16Units rest2
          pure ((0x10000 + ((u - 0xD800) <<< 10) + (l - 0xDC00)) :: tail)
        else
          .err .invalidFrameData
      | [] => .err .invalidFrameData
    else if 0xDC00 ≤ u ∧ u ≤ 0xDFFF then
      .err .invalidFrameData
    else do
      let tail ← decodeUtf16Units rest
      pure (u :: tail)

/-- `encoding.rs` `decode_utf16`, parameterized by the byte-pair
conversion exactly as the source is. -/
def decode_utf16 (slice : List Nat) (convert : Nat → Nat → Nat) :
    Ret CowStr := do
  let cps ← decodeUtf16Units (chunksExact2 convert slice)
  pure (.owned (cps.map utf8Encode).flatten)

/-- `encoding.rs` `decode_utf16_be`. -/
def decode_utf16_be (slice : List Nat) : Ret CowStr :=
  decode_utf16 slice u16_from_be

/-- `encoding.rs` `decode_utf16_le`. -/
def decode_utf16_le (slice : List Nat) : Ret CowStr :=
  decode_utf16 slice u16_from_le

/-- `encoding.rs` `decode_utf16_bom`: the source asserts
`slice.len() > 1` (debug) and indexes `slice[..2]`, so an input of fewer
than two bytes panics rather than returning an error. -/
def decode_utf16_bom (slice : List Nat) : Ret CowStr :=
  match slice with
  | b0 :: b1 :: rest =>
    if b0 = 0xFE ∧ b1 = 0xFF then
      decode_utf16_be rest
    else if b0 = 0xFF ∧ b1 = 0xFE then
      decode_utf16_le rest
    else
      .err .invalidFrameData
  | _ => .panics "assertion failed: slice.len() > 1"

/-! `decode/decoder.rs`: a cursor over a slice plus the current text
encoding. -/

/-- Frame content decoder (`Decoder`). -/
structure Decoder where
  input : List Nat
  pos : Nat
  format : Encoding
  deriving DecidableEq, Repr

/-- `Decoder::new`. -/
def Decoder.new (input : List Nat) : Decoder :=
  { input, pos := 0, format := .latin1 }

/-- `Decoder::is_empty`: the cursor position has reached the input
length. -/
def Decoder.is_empty (d : Decoder) : Bool :=
  d.input.length ≤ d.pos

/-- `Decoder::step`: apply `f` to the remaining bytes and advance the
cursor past the result plus `offset`. -/
def Decoder.step (d : Decoder) (offset : Nat) (f : List Nat → List Nat) :
    List Nat × Decoder :=
  let index := min d.pos d.input.length
  let bytes := f (d.input.drop index)
  (bytes, { d with pos := index + bytes.length + offset })

/-- `Decoder::remaining`. -/
def Decoder.remaining (d : Decoder) : List Nat × Decoder :=
  d.step 0 id

/-- `Decoder::until_nul`. -/
def Decoder.until_nul (d : Decoder) : List Nat × Decoder :=
  d.step 1 Slice.until_nul

/-- `Decoder::until_nul2`. -/
def Decoder.until_nul2 (d : Decoder) : List Nat × Decoder :=
  d.step 2 Slice.until_nul2

/-- `<[u8; S]>::decode`: `read_array` on the decoder's cursor. -/
def Decoder.read_array (d : Decoder) (n : Nat) : Ret (List Nat × Decoder) :=
  let index := min d.pos d.input.length
  if n ≤ d.input.length - index then
    .ok ((d.input.drop index).take n, { d with pos := index + n })
  else
    .err .io

/-- `u32::decode`: four big-endian bytes. -/
def Decoder.decode_u32 (d : Decoder) : Ret (Nat × Decoder) := do
  let (bytes, d1) ← d.read_array 4
  pure (u32_be bytes, d1)

/-- `Encoding::decode` (the `Decode` impl): read the encoding byte and
update the decoder's current format. -/
def Encoding.decode_byte (d : Decoder) : Ret (Encoding × Decoder) := do
  let (bytes, d1) ← d.read_array 1
  let enc : Ret Encoding :=
    match bytes.headD 0 with
    | 0 => .ok .latin1
    | 1 => .ok .utf16
    | 2 => .ok .utf16be
    | 3 => .ok .utf8
    | _ => .err .invalidFrameData
  match enc with
  | .ok enc => .ok (enc, { d1 with format := enc })
  | .err e => .err e
  | .panics msg => .panics msg

/-- `Encoding::decode` (the inherent method): decode one string in the
given encoding from the decoder. -/
def Encoding.decodeStr (fmt : Encoding) (d : Decoder) :
    Ret (CowStr × Decoder) :=
  match fmt with
  | .latin1 =>
    let (bytes, d1) := d.until_nul
    .ok (decode_latin1 bytes, d1)
  | .utf16 =>
    let (bytes, d1) := d.until_nul2
    do
      let s ← decode_utf16_bom bytes
      pure (s, d1)
  | .utf16be =>
    let (bytes, d1) := d.until_nul2
    do
      let s ← decode_utf16_be bytes
      pure (s, d1)
  | .utf8 =>
    let (bytes, d1) := d.until_nul
    do
      let s ← decode_utf8 bytes
      pure (s, d1)

/-- `Cow<'a, str>::decode`: decode a string in the decoder's current
format. -/
def Decoder.decode_str (d : Decoder) : Ret (CowStr × Decoder) :=
  Encoding.decodeStr d.format d

/-! `content/frames/text.rs` -/

/-- Text frame content (`TextContent`). -/
inductive TextContent where
  | text (s : CowStr)
  | list (l : List CowStr)
  deriving DecidableEq, Repr

/-- The string-collecting loop of `TextContent::decode`, with explicit
fuel (each pass advances the cursor by at least one byte, so input length
plus two is always enough). -/
def TextContent.loop (fuel : Nat) (d : Decoder) (acc : List CowStr) :
    Ret (List CowStr × Decoder) :=
  match fuel with
  | 0 => .panics "out of fuel"
  | fuel + 1 =>
    if d.is_empty then
      .ok (acc, d)
    else do
      let (s, d1) ← d.decode_str
      TextContent.loop fuel d1 (acc ++ [s])

/-- `TextContent::decode`. -/
def TextContent.decode (d : Decoder) : Ret (TextContent × Decoder) := do
  let (first, d1) ← d.decode_str
  if d1.is_empty then
    pure (.text first, d1)
  else do
    let (strs, d2) ← TextContent.loop (d1.input.length + 2) d1 [first]
    pure (.list strs, d2)

/-- Text information frame content (`Text`). -/
structure Text where
  text_encoding : Encoding
  text_content : TextContent
  deriving DecidableEq, Repr

/-- `Text::decode` as generated by the `Frame` derive: each field decoded
in order (the encoding byte first, which sets the current format).  The
ID3v2.2 form `decode_v2` defaults to this same function. -/
def Text.decode (d : Decoder) : Ret (Text × Decoder) := do
  let (text_encoding, d1) ← Encoding.decode_byte d
  let (text_content, d2) ← TextContent.decode d1
  pure ({ text_encoding, text_content }, d2)

/-! `content/frames/chap.rs` -/

/-- Chapter time data (`ChapTime`). -/
structure ChapTime where
  start_time : Nat
  start_from : Nat
  end_time : Nat
  end_from : Nat
  deriving DecidableEq, Repr

/-- `ChapTime::decode`: four big-endian `u32` values read in the order
start time, end time, start offset, end offset. -/
def ChapTime.decode (d : Decoder) : Ret (ChapTime × Decoder) := do
  let (start_time, d1) ← d.decode_u32
  let (end_time, d2) ← d1.decode_u32
  let (start_from, d3) ← d2.decode_u32
  let (end_from, d4) ← d3.decode_u32
  pure ({ start_time, start_from, end_time, end_from }, d4)

/-- Chapter frame content (`Chap`). -/
structure Chap where
  element_identifier : CowStr
  timestamps : ChapTime
  sub_frames : CowSlice
  deriving DecidableEq, Repr

/-- `Chap::decode` as generated by the `Frame` derive: the element
identifier string (in the decoder's current format), the four timestamps,
and the remaining bytes as the embedded sub-frame region. -/
def Chap.decode (d : Decoder) : Ret (Chap × Decoder) := do
  let (element_identifier, d1) ← d.decode_str
  let (timestamps, d2) ← ChapTime.decode d1
  let (bytes, d3) := d2.remaining
  pure ({ element_identifier, timestamps, sub_frames := .borrowed bytes }, d3)

/-- The byte region of a `Cow<'_, Slice>`. -/
def CowSlice.bytes : CowSlice → List Nat
  | .borrowed bytes => bytes
  | .owned bytes => bytes

/-- `Decoder::decode_frame`: the source parses `DynFrame::from_slice` on
`self.cursor.get_ref()` — the whole underlying slice, not the suffix at
the cursor — and then advances the cursor position by the parsed frame's
total size. -/
def Decoder.decode_frame (d : Decoder) (version : Version) :
    Ret (Option DynFrame) × Decoder :=
  match DynFrame.from_slice version d.input with
  | .ok (some frame) => (.ok (some frame), { d with pos := d.pos + frame.total_size })
  | .ok none => (.ok none, d)
  | .err e => (.err e, d)
  | .panics msg => (.panics msg, d)

/-- The fallback branch of `ChapIter::next`: try the frame as ID3v2.3 and
`transpose` the result. -/
def ChapIter.fallback (d : Decoder) : Ret (Option FrameItem × Decoder) :=
  match d.decode_frame .id3v23 with
  | (.ok (some frame), d1) => .ok (some (.frame frame), d1)
  | (.ok none, d1) => .ok (none, d1)
  | (.err e, d1) => .ok (some (.failure e), d1)
  | (.panics msg, _) => .panics msg

/-- `ChapIter::next`: stop when the decoder is empty, try an ID3v2.4
frame, and fall back to ID3v2.3 when that attempt does not produce a
frame. -/
def ChapIter.next (d : Decoder) : Ret (Option FrameItem × Decoder) :=
  if d.is_empty then
    .ok (none, d)
  else
    match d.decode_frame .id3v24 with
    | (.ok (some frame), d1) => .ok (some (.frame frame), d1)
    | (.ok none, d1) => ChapIter.fallback d1
    | (.err _, d1) => ChapIter.fallback d1
    | (.panics msg, _) => .panics msg

/-- Run `ChapIter` to completion, collecting every yielded item (fuel
exhaustion is a distinct outcome, as for `FrameIter.items`). -/
def ChapIter.items (fuel : Nat) (d : Decoder) : Ret (List FrameItem) :=
  match fuel with
  | 0 => .panics "out of fuel"
  | fuel + 1 =>
    match ChapIter.next d with
    | .ok (none, _) => .ok []
    | .ok (some item, d1) => do
      let rest ← ChapIter.items fuel d1
      pure (item :: rest)
    | .err e => .err e
    | .panics msg => .panics msg

/-! `content/content.rs`: the `Content` sum and its dispatcher.  The
variants constructed by the theorems below are embedded in full; the
dispatcher itself is embedded as a total classifier over every arm of the
source `match`. -/

/-- Unknown frame content (`Unkn`). -/
structure Unkn where
  binary_data : CowSlice
  deriving DecidableEq, Repr

/-- Decoded frame content (`Content`), restricted to the variants that
the theorems in this file construct.  `Content::into_owned` in the source
ignores its argument entirely (it is a stub `panic!`), so its embedding
below is faithful on this restriction. -/
inductive Content where
  | text (inner : Text)
  | chap (inner : Chap)
  | unkn (inner : Unkn)
  deriving DecidableEq, Repr

/-- `IntoOwned for Content`: the source body is
`panic!("Content::into_owned")`, independent of the value. -/
def Content.into_owned (_content : Content) : Ret Content :=
  .panics "Content::into_owned"

/-- The tag of each `Content` variant in `content/content.rs`, used to
describe which record decoder a dispatcher arm selects. -/
inductive ContentKind where
  | aenc
  | apic
  | atxt
  | chap
  | comm
  | ctoc
  | comr
  | encr
  | equa
  | etco
  | geob
  | grid
  | ipls
  | link
  | mcdi
  | mllt
  | owne
  | pcnt
  | popm
  | poss
  | priv
  | rbuf
  | rva2
  | rvad
  | rvrb
  | sylt
  | sytc
  | text
  | txxx
  | ufid
  | user
  | uslt
  | wcom
  | wcop
  | woaf
  | woar
  | woas
  | wors
  | wpay
  | wpub
  | wxxx
  | unkn
  deriving DecidableEq, Repr

/-- What a `Content::decode` dispatch arm does: run a record decoder and
wrap the result in the named variant, `panic!` on an unimplemented
identifier, `panic!` on the wildcard (unknown identifier), or `panic!` on
an ID3v1.x version. -/
inductive DispatchArm where
  | record (kind : ContentKind)
  | panicTodo (msg : String)
  | panicUnknown
  | panicVersion (msg : String)
  deriving DecidableEq, Repr

/-- The arm of the `match` in `Content::decode` selected for a given
version and identifier, in source order. -/
def Content.decodeArm (version : Version) (name : String) : DispatchArm :=
  match version, name with
  | .id3v11, _ => .panicVersion "Invalid Version: ID3v11"
  | .id3v12, _ => .panicVersion "Invalid Version: ID3v12"
  | .id3v22, "BUF" => .record .rbuf
  | .id3v22, "CNT" => .record .pcnt
  | .id3v22, "COM" => .record .comm
  | .id3v22, "CRA" => .record .aenc
  | .id3v22, "CRM" => .panicTodo "TODO: Decode CRM"
  | .id3v22, "ETC" => .record .etco
  | .id3v22, "EQU" => .record .equa
  | .id3v22, "GEO" => .record .geob
  | .id3v22, "IPL" => .record .ipls
  | .id3v22, "LNK" => .record .link
  | .id3v22, "MCI" => .record .mcdi
  | .id3v22, "MLL" => .record .mllt
  | .id3v22, "PIC" => .record .apic
  | .id3v22, "POP" => .record .popm
  | .id3v22, "REV" => .record .rvrb
  | .id3v22, "RVA" => .record .rvad
  | .id3v22, "SLT" => .record .sylt
  | .id3v22, "STC" => .record .sytc
  | .id3v22, "TAL" => .record .text
  | .id3v22, "TBP" => .record .text
  | .id3v22, "TCM" => .record .text
  | .id3v22, "TCO" => .record .text
  | .id3v22, "TCR" => .record .text
  | .id3v22, "TDA" => .record .text
  | .id3v22, "TDY" => .record .text
  | .id3v22, "TEN" => .record .text
  | .id3v22, "TFT" => .record .text
  | .id3v22, "TIM" => .record .text
  | .id3v22, "TKE" => .record .text
  | .id3v22, "TLA" => .record .text
  | .id3v22, "TLE" => .record .text
  | .id3v22, "TMT" => .record .text
  | .id3v22, "TOA" => .record .text
  | .id3v22, "TOF" => .record .text
  | .id3v22, "TOL" => .record .text
  | .id3v22, "TOR" => .record .text
  | .id3v22, "TOT" => .record .text
  | .id3v22, "TP1" => .record .text
  | .id3v22, "TP2" => .record .text
  | .id3v22, "TP3" => .record .text
  | .id3v22, "TP4" => .record .text
  | .id3v22, "TPA" => .record .text
  | .id3v22, "TPB" => .record .text
  | .id3v22, "TRC" => .record .text
  | .id3v22, "TRD" => .record .text
  | .id3v22, "TRK" => .record .text
  | .id3v22, "TSI" => .record .text
  | .id3v22, "TSS" => .record .text
  | .id3v22, "TT1" => .record .text
  | .id3v22, "TT2" => .record .text
  | .id3v22, "TT3" => .record .text
  | .id3v22, "TXT" => .record .text
  | .id3v22, "TXX" => .record .txxx
  | .id3v22, "TYE" => .record .text
  | .id3v22, "UFI" => .record .ufid
  | .id3v22, "ULT" => .record .uslt
  | .id3v22, "WAF" => .record .woaf
  | .id3v22, "WAR" => .record .woar
  | .id3v22, "WAS" => .record .woas
  | .id3v22, "WCM" => .record .wcom
  | .id3v22, "WCP" => .record .wcop
  | .id3v22, "WPB" => .record .wpub
  | .id3v22, "WXX" => .record .wxxx
  | .id3v23, "AENC" | .id3v24, "AENC" => .record .aenc
  | .id3v23, "APIC" | .id3v24, "APIC" => .record .apic
  | .id3v23, "COMM" | .id3v24, "COMM" => .record .comm
  | .id3v23, "COMR" | .id3v24, "COMR" => .record .comr
  | .id3v23, "ENCR" | .id3v24, "ENCR" => .record .encr
  | .id3v23, "EQUA" => .record .equa
  | .id3v23, "ETCO" | .id3v24, "ETCO" => .record .etco
  | .id3v23, "GEOB" | .id3v24, "GEOB" => .record .geob
  | .id3v23, "GRID" | .id3v24, "GRID" => .record .grid
  | .id3v23, "IPLS" => .record .ipls
  | .id3v23, "LINK" | .id3v24, "LINK" => .record .link
  | .id3v23, "MCDI" | .id3v24, "MCDI" => .record .mcdi
  | .id3v23, "MLLT" | .id3v24, "MLLT" => .record .mllt
  | .id3v23, "OWNE" | .id3v24, "OWNE" => .record .owne
  | .id3v23, "PRIV" | .id3v24, "PRIV" => .record .priv
  | .id3v23, "PCNT" | .id3v24, "PCNT" => .record .pcnt
  | .id3v23, "POPM" | .id3v24, "POPM" => .record .popm
  | .id3v23, "POSS" | .id3v24, "POSS" => .record .poss
  | .id3v23, "RBUF" | .id3v24, "RBUF" => .record .rbuf
  | .id3v23, "RVAD" => .record .rvad
  | .id3v23, "RVRB" | .id3v24, "RVRB" => .record .rvrb
  | .id3v23, "SYLT" | .id3v24, "SYLT" => .record .sylt
  | .id3v23, "SYTC" | .id3v24, "SYTC" => .record .sytc
  | .id3v23, "TALB" | .id3v24, "TALB" => .record .text
  | .id3v23, "TBPM" | .id3v24, "TBPM" => .record .text
  | .id3v23, "TCOM" | .id3v24, "TCOM" => .record .text
  | .id3v23, "TCON" | .id3v24, "TCON" => .record .text
  | .id3v23, "TCOP" | .id3v24, "TCOP" => .record .text
  | .id3v23, "TDAT" => .record .text
  | .id3v23, "TDLY" | .id3v24, "TDLY" => .record .text
  | .id3v23, "TENC" | .id3v24, "TENC" => .record .text
  | .id3v23, "TEXT" | .id3v24, "TEXT" => .record .text
  | .id3v23, "TFLT" | .id3v24, "TFLT" => .record .text
  | .id3v23, "TIME" => .record .text
  | .id3v23, "TIT1" | .id3v24, "TIT1" => .record .text
  | .id3v23, "TIT2" | .id3v24, "TIT2" => .record .text
  | .id3v23, "TIT3" | .id3v24, "TIT3" => .record .text
  | .id3v23, "TKEY" | .id3v24, "TKEY" => .record .text
  | .id3v23, "TLAN" | .id3v24, "TLAN" => .record .text
  | .id3v23, "TLEN" | .id3v24, "TLEN" => .record .text
  | .id3v23, "TMED" | .id3v24, "TMED" => .record .text
  | .id3v23, "TOAL" | .id3v24, "TOAL" => .record .text
  | .id3v23, "TOFN" | .id3v24, "TOFN" => .record .text
  | .id3v23, "TOLY" | .id3v24, "TOLY" => .record .text
  | .id3v23, "TOPE" | .id3v24, "TOPE" => .record .text
  | .id3v23, "TORY" => .record .text
  | .id3v23, "TOWN" | .id3v24, "TOWN" => .record .text
  | .id3v23, "TPE1" | .id3v24, "TPE1" => .record .text
  | .id3v23, "TPE2" | .id3v24, "TPE2" => .record .text
  | .id3v23, "TPE3" | .id3v24, "TPE3" => .record .text
  | .id3v23, "TPE4" | .id3v24, "TPE4" => .record .text
  | .id3v23, "TPOS" | .id3v24, "TPOS" => .record .text
  | .id3v23, "TPUB" | .id3v24, "TPUB" => .record .text
  | .id3v23, "TRCK" | .id3v24, "TRCK" => .record .text
  | .id3v23, "TRDA" => .record .text
  | .id3v23, "TRSN" | .id3v24, "TRSN" => .record .text
  | .id3v23, "TRSO" | .id3v24, "TRSO" => .record .text
  | .id3v23, "TSIZ" => .record .text
  | .id3v23, "TSRC" | .id3v24, "TSRC" => .record .text
  | .id3v23, "TSSE" | .id3v24, "TSSE" => .record .text
  | .id3v23, "TYER" => .record .text
  | .id3v23, "TXXX" | .id3v24, "TXXX" => .record .txxx
  | .id3v23, "UFID" | .id3v24, "UFID" => .record .ufid
  | .id3v23, "USER" | .id3v24, "USER" => .record .user
  | .id3v23, "USLT" | .id3v24, "USLT" => .record .uslt
  | .id3v23, "WCOM" | .id3v24, "WCOM" => .record .wcom
  | .id3v23, "WCOP" | .id3v24, "WCOP" => .record .wcop
  | .id3v23, "WOAF" | .id3v24, "WOAF" => .record .woaf
  | .id3v23, "WOAR" | .id3v24, "WOAR" => .record .woar
  | .id3v23, "WOAS" | .id3v24, "WOAS" => .record .woas
  | .id3v23, "WORS" | .id3v24, "WORS" => .record .wors
  | .id3v23, "WPAY" | .id3v24, "WPAY" => .record .wpay
  | .id3v23, "WPUB" | .id3v24, "WPUB" => .record .wpub
  | .id3v23, "WXXX" | .id3v24, "WXXX" => .record .wxxx
  | .id3v24, "ASPI" => .panicTodo "TODO: Decode ASPI"
  | .id3v24, "EQU2" => .panicTodo "TODO: Decode EQU2"
  | .id3v24, "RVA2" => .record .rva2
  | .id3v24, "SEEK" => .panicTodo "TODO: Decode SEEK"
  | .id3v24, "SIGN" => .panicTodo "TODO: Decode SIGN"
  | .id3v24, "TDEN" => .record .text
  | .id3v24, "TDOR" => .record .text
  | .id3v24, "TDRC" => .record .text
  | .id3v24, "TDRL" => .record .text
  | .id3v24, "TDTG" => .record .text
  | .id3v24, "TIPL" => .record .text
  | .id3v24, "TMCL" => .record .text
  | .id3v24, "TMOO" => .record .text
  | .id3v24, "TPRO" => .record .text
  | .id3v24, "TSOA" => .record .text
  | .id3v24, "TSOP" => .record .text
  | .id3v24, "TSOT" => .record .text
  | .id3v24, "TSST" => .record .text
  | .id3v23, "CHAP" | .id3v24, "CHAP" => .record .chap
  | .id3v23, "CTOC" | .id3v24, "CTOC" => .record .ctoc
  | .id3v23, "ATXT" | .id3v24, "ATXT" => .record .atxt
  | _, "RGAD" => .panicTodo "TODO: Decode RGAD"
  | _, "TCMP" => .panicTodo "TODO: Decode TCMP"
  | _, "TSO2" => .panicTodo "TODO: Decode TSO2"
  | _, "TSOC" => .panicTodo "TODO: Decode TSOC"
  | _, "XRVA" => .panicTodo "TODO: Decode XRVA"
  | _, _ => .panicUnknown

/-- The body of a text arm of `Content::decode` (every arm that maps its
identifier to the `Text` record, including the ID3v2.2 ones, runs this:
`Text` has no custom v2.2 decode, so `decode_v2` and `decode` agree),
followed by the dispatcher's `assert!(decoder.is_empty())`.  On the error
path the source still runs the assertion against the partially advanced
cursor before propagating the error; no theorem below depends on that
path. -/
def Content.decode_text_arm (slice : List Nat) : Ret Content :=
  match Text.decode (Decoder.new slice) with
  | .ok (value, d1) =>
    if d1.is_empty then
      .ok (.text value)
    else
      .panics "assertion failed: decoder.is_empty()"
  | .err e => .err e
  | .panics msg => .panics msg

/-- The body of a `CHAP` arm of `Content::decode`, followed by the
dispatcher's `assert!(decoder.is_empty())`. -/
def Content.decode_chap_arm (slice : List Nat) : Ret Content :=
  match Chap.decode (Decoder.new slice) with
  | .ok (value, d1) =>
    if d1.is_empty then
      .ok (.chap value)
    else
      .panics "assertion failed: decoder.is_empty()"
  | .err e => .err e
  | .panics msg => .panics msg

/-! `utils::decompress` and `Content::decode2`. -/

/-- `utils::decompress` as compiled without the `zlib` feature: an
unconditional `panic!`. -/
def decompress_nozlib (_input : List Nat) (_size : Option Nat) :
    Ret (List Nat) :=
  .panics "Enable `zlib` feature to use ZLIB decompression."

/-- `Content::decode2` specialized to `(ID3v2.3, "TCON")` (a text arm),
parameterized by the decompressor capability: decompress the slice with
the expected output size, decode the result, then promote it with
`Content::into_owned`. -/
def Content.decode2_TCON_v23
    (decompress : List Nat → Option Nat → Ret (List Nat))
    (slice : List Nat) (size : Nat) : Ret Content := do
  let bytes ← decompress slice (some size)
  let content ← Content.decode_text_arm bytes
  Content.into_owned content

/-! `traits/into.rs` and the derived `IntoOwned` implementations. -/

/-- `IntoOwned for Cow<'_, str>`: `Cow::Owned(Cow::into_owned(self))`. -/
def CowStr.into_owned (c : CowStr) : CowStr :=
  .owned c.bytes

/-- `IntoOwned for Cow<'_, Slice>`. -/
def CowSlice.into_owned (c : CowSlice) : CowSlice :=
  .owned c.bytes

/-- `IntoOwned for Option<T>` (pointwise). -/
def Option.into_owned {α : Type} (f : α → α) : Option α → Option α :=
  Option.map f

/-- `IntoOwned for Vec<T>` (pointwise). -/
def List.into_owned {α : Type} (f : α → α) : List α → List α :=
  List.map f

/-- `IntoOwned for TextContent`. -/
def TextContent.into_owned : TextContent → TextContent
  | .text s => .text s.into_owned
  | .list l => .list (l.map CowStr.into_owned)

/-- `IntoOwned for Text` as generated by the `Frame` derive (the
`Encoding` field is carried by value). -/
def Text.into_owned (t : Text) : Text :=
  { text_encoding := t.text_encoding,
    text_content := t.text_content.into_owned }

/-- `copy_into_owned!(ChapTime)`. -/
def ChapTime.into_owned (t : ChapTime) : ChapTime :=
  t

/-- `IntoOwned for Chap` as generated by the `Frame` derive. -/
def Chap.into_owned (c : Chap) : Chap :=
  { element_identifier := c.element_identifier.into_owned,
    timestamps := c.timestamps.into_owned,
    sub_frames := c.sub_frames.into_owned }

/-- `IntoOwned for Unkn` as generated by the `Frame` derive. -/
def Unkn.into_owned (u : Unkn) : Unkn :=
  { binary_data := u.binary_data.into_owned }

/-! The remaining frame-content records (`content/frames/*.rs`) with the
`IntoOwned` implementations the `Frame` derive generates for them: every
field is promoted through its own `into_owned` (`copy_into_owned!` makes
that the identity on integers, bitflag bytes, stack strings and
enumerations), except a field marked `#[frame(copy)]`, which is copied
directly.  Bitflag types (`AtxtFlags`, `CtocFlags`, `RbufFlags`) wrap a
`u8` and are embedded as their bit value. -/

/-- `copy_into_owned!` on the integer types of `traits/into.rs` (and on
the `NonZero` family): the identity. -/
def natIntoOwned (n : Nat) : Nat :=
  n

/-- Modelled from the spec: no `IntoOwned` impl for `Encoding` appears
among the provided source files, although the `Frame` derive expansion
requires one for every record with a `text_encoding` field.  Spec 4.11: a
fixed-width enum is carried by value. -/
def Encoding.into_owned (e : Encoding) : Encoding :=
  e

/-- `decode/timestamp.rs` `Timestamp`. -/
inductive Timestamp where
  | mpegFrames
  | milliseconds
  deriving DecidableEq, Repr

/-- Modelled from the spec: no `IntoOwned` impl for `Timestamp` appears
among the provided source files, although the `Frame` derive expansion
requires one.  Spec 4.11: a fixed-width enum is carried by value. -/
def Timestamp.into_owned (t : Timestamp) : Timestamp :=
  t

/-- `decode/language.rs` `Language`: a 3-byte stack string. -/
structure Language where
  inner : List Nat
  deriving DecidableEq, Repr

/-- `copy_into_owned!(Language)` via `impl_stack_string!`. -/
def Language.into_owned (l : Language) : Language :=
  l

/-- `decode/date.rs` `Date`: an 8-byte stack string. -/
structure Date where
  inner : List Nat
  deriving DecidableEq, Repr

/-- `copy_into_owned!(Date)` via `impl_stack_string!`. -/
def Date.into_owned (d : Date) : Date :=
  d

/-- `apic.rs` `ImgType`. -/
inductive ImgType where
  | png
  | jpg
  deriving DecidableEq, Repr

/-- `copy_into_owned!(ImgType)`. -/
def ImgType.into_owned (i : ImgType) : ImgType :=
  i

/-- `apic.rs` `PicType`. -/
inductive PicType where
  | other
  | fileIcon
  | fileIcon2
  | coverFront
  | coverBack
  | leaflet
  | media
  | leadArtist
  | artist
  | conductor
  | band
  | composer
  | lyricist
  | recordingLocation
  | duringRecording
  | duringPerformance
  | movie
  | brightColouredFish
  | illustration
  | bandLogo
  | publisher
  deriving DecidableEq, Repr

/-- `copy_into_owned!(PicType)`. -/
def PicType.into_owned (p : PicType) : PicType :=
  p

/-- `comr.rs` `ReceivedAs`. -/
inductive ReceivedAs where
  | other
  | standard
  | compressed
  | internetFile
  | internetStream
  | noteSheets
  | noteSheetsBook
  | music
  | nonMusical
  deriving DecidableEq, Repr

/-- `copy_into_owned!(ReceivedAs)`. -/
def ReceivedAs.into_owned (r : ReceivedAs) : ReceivedAs :=
  r

/-- `sylt.rs` `ContentType`. -/
inductive ContentType where
  | other
  | lyrics
  | text
  | movement
  | events
  | chord
  | trivia
  deriving DecidableEq, Repr

/-- `copy_into_owned!(ContentType)`. -/
def ContentType.into_owned (c : ContentType) : ContentType :=
  c

/-- `aenc.rs` `Aenc`. -/
structure Aenc where
  owner_identifier : CowStr
  preview_start : Nat
  preview_length : Nat
  encryption_info : CowSlice
  deriving DecidableEq, Repr

/-- `IntoOwned for Aenc` (derived). -/
def Aenc.into_owned (a : Aenc) : Aenc :=
  { owner_identifier := a.owner_identifier.into_owned,
    preview_start := natIntoOwned a.preview_start,
    preview_length := natIntoOwned a.preview_length,
    encryption_info := a.encryption_info.into_owned }

/-- `apic.rs` `Apic`. -/
structure Apic where
  text_encoding : Encoding
  image_format : ImgType
  picture_type : PicType
  description : CowStr
  picture_data : CowSlice
  deriving DecidableEq, Repr

/-- `IntoOwned for Apic` (derived; `skip_decoding` only suppresses the
`Decode` impl, not this one). -/
def Apic.into_owned (a : Apic) : Apic :=
  { text_encoding := a.text_encoding.into_owned,
    image_format := a.image_format.into_owned,
    picture_type := a.picture_type.into_owned,
    description := a.description.into_owned,
    picture_data := a.picture_data.into_owned }

/-- `atxt.rs` `Atxt`. -/
structure Atxt where
  text_encoding : Encoding
  mime_type : CowStr
  flags : Nat
  text_content : CowStr
  audio_data : CowSlice
  deriving DecidableEq, Repr

/-- `IntoOwned for Atxt` (derived; `copy_into_owned!(AtxtFlags)`). -/
def Atxt.into_owned (a : Atxt) : Atxt :=
  { text_encoding := a.text_encoding.into_owned,
    mime_type := a.mime_type.into_owned,
    flags := natIntoOwned a.flags,
    text_content := a.text_content.into_owned,
    audio_data := a.audio_data.into_owned }

/-- `comm.rs` `Comm`. -/
structure Comm where
  text_encoding : Encoding
  language : Language
  text_summary : CowStr
  text_details : CowStr
  deriving DecidableEq, Repr

/-- `IntoOwned for Comm` (derived). -/
def Comm.into_owned (c : Comm) : Comm :=
  { text_encoding := c.text_encoding.into_owned,
    language := c.language.into_owned,
    text_summary := c.text_summary.into_owned,
    text_details := c.text_details.into_owned }

/-- `comr.rs` `Comr`. -/
structure Comr where
  text_encoding : Encoding
  price_string : CowStr
  valid_until : Date
  contact_url : CowStr
  received_as : ReceivedAs
  seller_name : CowStr
  description : CowStr
  mime_type : CowStr
  seller_logo : CowSlice
  deriving DecidableEq, Repr

/-- `IntoOwned for Comr` (derived; the `read` attributes affect only
decoding). -/
def Comr.into_owned (c : Comr) : Comr :=
  { text_encoding := c.text_encoding.into_owned,
    price_string := c.price_string.into_owned,
    valid_until := c.valid_until.into_owned,
    contact_url := c.contact_url.into_owned,
    received_as := c.received_as.into_owned,
    seller_name := c.seller_name.into_owned,
    description := c.description.into_owned,
    mime_type := c.mime_type.into_owned,
    seller_logo := c.seller_logo.into_owned }

/-- `ctoc.rs` `Ctoc`. -/
structure Ctoc where
  element_identifier : CowStr
  bitflags : Nat
  entry_count : Nat
  binary_data : CowSlice
  deriving DecidableEq, Repr

/-- `IntoOwned for Ctoc` (derived; `copy_into_owned!(CtocFlags)`, and the
`NonZeroU8` count is copied). -/
def Ctoc.into_owned (c : Ctoc) : Ctoc :=
  { element_identifier := c.element_identifier.into_owned,
    bitflags := natIntoOwned c.bitflags,
    entry_count := natIntoOwned c.entry_count,
    binary_data := c.binary_data.into_owned }

/-- `encr.rs` `Encr`. -/
structure Encr where
  owner_identifier : CowStr
  method_symbol : Nat
  encryption_data : CowSlice
  deriving DecidableEq, Repr

/-- `IntoOwned for Encr` (derived). -/
def Encr.into_owned (e : Encr) : Encr :=
  { owner_identifier := e.owner_identifier.into_owned,
    method_symbol := natIntoOwned e.method_symbol,
    encryption_data := e.encryption_data.into_owned }

/-- `equa.rs` `Equa` (a placeholder record holding the raw bytes). -/
structure Equa where
  fixme : CowSlice
  deriving DecidableEq, Repr

/-- `IntoOwned for Equa` (derived). -/
def Equa.into_owned (e : Equa) : Equa :=
  { fixme := e.fixme.into_owned }

/-- `etco.rs` `Etco`. -/
structure Etco where
  time_format : Timestamp
  event_codes : CowSlice
  deriving DecidableEq, Repr

/-- `IntoOwned for Etco` (derived). -/
def Etco.into_owned (e : Etco) : Etco :=
  { time_format := e.time_format.into_owned,
    event_codes := e.event_codes.into_owned }

/-- `geob.rs` `Geob`. -/
structure Geob where
  text_encoding : Encoding
  mime_type : CowStr
  filename : CowStr
  content_description : CowStr
  encapsulated_object : CowSlice
  deriving DecidableEq, Repr

/-- `IntoOwned for Geob` (derived). -/
def Geob.into_owned (g : Geob) : Geob :=
  { text_encoding := g.text_encoding.into_owned,
    mime_type := g.mime_type.into_owned,
    filename := g.filename.into_owned,
    content_description := g.content_description.into_owned,
    encapsulated_object := g.encapsulated_object.into_owned }

/-- `grid.rs` `Grid`. -/
structure Grid where
  owner_identifier : CowStr
  group_symbol : Nat
  group_data : CowSlice
  deriving DecidableEq, Repr

/-- `IntoOwned for Grid` (derived). -/
def Grid.into_owned (g : Grid) : Grid :=
  { owner_identifier := g.owner_identifier.into_owned,
    group_symbol := natIntoOwned g.group_symbol,
    group_data := g.group_data.into_owned }

/-- `ipls.rs` `Ipls` (placeholder record). -/
structure Ipls where
  fixme : CowSlice
  deriving DecidableEq, Repr

/-- `IntoOwned for Ipls` (derived). -/
def Ipls.into_owned (i : Ipls) : Ipls :=
  { fixme := i.fixme.into_owned }

/-- `link.rs` `Link`. -/
structure Link where
  frame_identifier : List Nat
  url : CowStr
  additional_data : CowSlice
  deriving DecidableEq, Repr

/-- `IntoOwned for Link` (derived; `frame_identifier` is
`#[frame(copy)]`, so it is copied directly). -/
def Link.into_owned (l : Link) : Link :=
  { frame_identifier := l.frame_identifier,
    url := l.url.into_owned,
    additional_data := l.additional_data.into_owned }

/-- `mcdi.rs` `Mcdi`. -/
structure Mcdi where
  data : CowSlice
  deriving DecidableEq, Repr

/-- `IntoOwned for Mcdi` (derived). -/
def Mcdi.into_owned (m : Mcdi) : Mcdi :=
  { data := m.data.into_owned }

/-- `mllt.rs` `Mllt` (placeholder record). -/
structure Mllt where
  fixme : CowSlice
  deriving DecidableEq, Repr

/-- `IntoOwned for Mllt` (derived). -/
def Mllt.into_owned (m : Mllt) : Mllt :=
  { fixme := m.fixme.into_owned }

/-- `owne.rs` `Owne`. -/
structure Owne where
  text_encoding : Encoding
  price_paid : CowStr
  purchase_date : Date
  seller : CowStr
  deriving DecidableEq, Repr

/-- `IntoOwned for Owne` (derived). -/
def Owne.into_owned (o : Owne) : Owne :=
  { text_encoding := o.text_encoding.into_owned,
    price_paid := o.price_paid.into_owned,
    purchase_date := o.purchase_date.into_owned,
    seller := o.seller.into_owned }

/-- `pcnt.rs` `Pcnt`. -/
structure Pcnt where
  counter : Nat
  deriving DecidableEq, Repr

/-- `IntoOwned for Pcnt` (derived). -/
def Pcnt.into_owned (p : Pcnt) : Pcnt :=
  { counter := natIntoOwned p.counter }

/-- `popm.rs` `Popm`. -/
structure Popm where
  user_email : CowStr
  rating : Nat
  counter : Nat
  deriving DecidableEq, Repr

/-- `IntoOwned for Popm` (derived). -/
def Popm.into_owned (p : Popm) : Popm :=
  { user_email := p.user_email.into_owned,
    rating := natIntoOwned p.rating,
    counter := natIntoOwned p.counter }

/-- `poss.rs` `Poss` (placeholder record). -/
structure Poss where
  fixme : CowSlice
  deriving DecidableEq, Repr

/-- `IntoOwned for Poss` (derived). -/
def Poss.into_owned (p : Poss) : Poss :=
  { fixme := p.fixme.into_owned }

/-- `priv.rs` `Priv`. -/
structure Priv where
  owner_identifier : CowStr
  private_data : CowSlice
  deriving DecidableEq, Repr

/-- `IntoOwned for Priv` (derived). -/
def Priv.into_owned (p : Priv) : Priv :=
  { owner_identifier := p.owner_identifier.into_owned,
    private_data := p.private_data.into_owned }

/-- `rbuf.rs` `Rbuf`. -/
structure Rbuf where
  buffer_size : Nat
  bitflags : Nat
  tag_offset : Nat
  deriving DecidableEq, Repr

/-- `IntoOwned for Rbuf` (derived; `copy_into_owned!(RbufFlags)`). -/
def Rbuf.into_owned (r : Rbuf) : Rbuf :=
  { buffer_size := natIntoOwned r.buffer_size,
    bitflags := natIntoOwned r.bitflags,
    tag_offset := natIntoOwned r.tag_offset }

/-- `rva2.rs` `Rva2` (placeholder record). -/
structure Rva2 where
  fixme : CowSlice
  deriving DecidableEq, Repr

/-- `IntoOwned for Rva2` (derived). -/
def Rva2.into_owned (r : Rva2) : Rva2 :=
  { fixme := r.fixme.into_owned }

/-- `rvad.rs` `Rvad` (placeholder record). -/
structure Rvad where
  fixme : CowSlice
  deriving DecidableEq, Repr

/-- `IntoOwned for Rvad` (derived). -/
def Rvad.into_owned (r : Rvad) : Rvad :=
  { fixme := r.fixme.into_owned }

/-- `rvrb.rs` `Rvrb`. -/
structure Rvrb where
  reverb_lhs : Nat
  reverb_rhs : Nat
  reverb_bounces_lhs : Nat
  reverb_bounces_rhs : Nat
  reverb_feedback_ltl : Nat
  reverb_feedback_ltr : Nat
  reverb_feedback_rtr : Nat
  reverb_feedback_rtl : Nat
  premix_ltr : Nat
  premix_rtl : Nat
  deriving DecidableEq, Repr

/-- `IntoOwned for Rvrb` (derived). -/
def Rvrb.into_owned (r : Rvrb) : Rvrb :=
  { reverb_lhs := natIntoOwned r.reverb_lhs,
    reverb_rhs := natIntoOwned r.reverb_rhs,
    reverb_bounces_lhs := natIntoOwned r.reverb_bounces_lhs,
    reverb_bounces_rhs := natIntoOwned r.reverb_bounces_rhs,
    reverb_feedback_ltl := natIntoOwned r.reverb_feedback_ltl,
    reverb_feedback_ltr := natIntoOwned r.reverb_feedback_ltr,
    reverb_feedback_rtr := natIntoOwned r.reverb_feedback_rtr,
    reverb_feedback_rtl := natIntoOwned r.reverb_feedback_rtl,
    premix_ltr := natIntoOwned r.premix_ltr,
    premix_rtl := natIntoOwned r.premix_rtl }

/-- `sylt.rs` `Sylt`. -/
structure Sylt where
  text_encoding : Encoding
  language : Language
  time_format : Timestamp
  content_type : ContentType
  content_descriptor : CowStr
  binary_data : CowSlice
  deriving DecidableEq, Repr

/-- `IntoOwned for Sylt` (derived). -/
def Sylt.into_owned (s : Sylt) : Sylt :=
  { text_encoding := s.text_encoding.into_owned,
    language := s.language.into_owned,
    time_format := s.time_format.into_owned,
    content_type := s.content_type.into_owned,
    content_descriptor := s.content_descriptor.into_owned,
    binary_data := s.binary_data.into_owned }

/-- `sytc.rs` `Sytc` (placeholder record). -/
structure Sytc where
  fixme : CowSlice
  deriving DecidableEq, Repr

/-- `IntoOwned for Sytc` (derived). -/
def Sytc.into_owned (s : Sytc) : Sytc :=
  { fixme := s.fixme.into_owned }

/-- `txxx.rs` `Txxx`. -/
structure Txxx where
  text_encoding : Encoding
  text_summary : CowStr
  text_details : CowStr
  deriving DecidableEq, Repr

/-- `IntoOwned for Txxx` (derived). -/
def Txxx.into_owned (t : Txxx) : Txxx :=
  { text_encoding := t.text_encoding.into_owned,
    text_summary := t.text_summary.into_owned,
    text_details := t.text_details.into_owned }

/-- `ufid.rs` `Ufid`. -/
structure Ufid where
  owner_identifier : CowStr
  identifier : CowSlice
  deriving DecidableEq, Repr

/-- `IntoOwned for Ufid` (derived). -/
def Ufid.into_owned (u : Ufid) : Ufid :=
  { owner_identifier := u.owner_identifier.into_owned,
    identifier := u.identifier.into_owned }

/-- `user.rs` `User`. -/
structure User where
  text_encoding : Encoding
  language : Language
  text_content : CowStr
  deriving DecidableEq, Repr

/-- `IntoOwned for User` (derived). -/
def User.into_owned (u : User) : User :=
  { text_encoding := u.text_encoding.into_owned,
    language := u.language.into_owned,
    text_content := u.text_content.into_owned }

/-- `uslt.rs` `Uslt`. -/
structure Uslt where
  text_encoding : Encoding
  language : Language
  content_descriptor : CowStr
  lyrics : CowStr
  deriving DecidableEq, Repr

/-- `IntoOwned for Uslt` (derived). -/
def Uslt.into_owned (u : Uslt) : Uslt :=
  { text_encoding := u.text_encoding.into_owned,
    language := u.language.into_owned,
    content_descriptor := u.content_descriptor.into_owned,
    lyrics := u.lyrics.into_owned }

/-- `wurl.rs` `Wurl` (the shared record of the `W***` URL frames). -/
structure Wurl where
  url : CowStr
  deriving DecidableEq, Repr

/-- `IntoOwned for Wurl` (derived). -/
def Wurl.into_owned (w : Wurl) : Wurl :=
  { url := w.url.into_owned }

/-- `wxxx.rs` `Wxxx`. -/
structure Wxxx where
  text_encoding : Encoding
  description : CowStr
  url : CowStr
  deriving DecidableEq, Repr

/-- `IntoOwned for Wxxx` (derived). -/
def Wxxx.into_owned (w : Wxxx) : Wxxx :=
  { text_encoding := w.text_encoding.into_owned,
    description := w.description.into_owned,
    url := w.url.into_owned }

/-! `unsync.rs`: the unsynchronisation reader. -/

/-- The `Unsync` adapter state carried across `read` calls: the last byte
stored for pair comparison and whether the last processed byte is still
pending ("stale"). -/
structure UnsyncState where
  bcache : Nat
  bstale : Bool
  deriving DecidableEq, Repr

/-- `Unsync::new`. -/
def Unsync.new : UnsyncState :=
  { bcache := 0, bstale := false }

/-- The read loop of `Unsync::read`: `src` is the wrapped reader's
remaining bytes, `cap` the space left in the caller's buffer, and `out`
the bytes written so far.  Returns the written bytes, the `bcache` and
`bstale` fields after the loop, and the unread source.  Mirrors the
source exactly: on a `0xFF, 0x00` pair the `0x00` is skipped and marked
stale; when the buffer fills, the loop breaks before the `bcache` update
that closes each iteration. -/
def Unsync.loop : List Nat → Nat → Nat → Bool → List Nat →
    List Nat × Nat × Bool × List Nat
  | [], _, bcache, bstale, out => (out, bcache, bstale, [])
  | byte :: rest, cap, bcache, bstale, out =>
    if bcache = 0xFF ∧ byte = 0x00 then
      Unsync.loop rest cap byte true out
    else
      let out2 := out ++ [byte]
      if cap - 1 = 0 then
        (out2, bcache, false, rest)
      else
        Unsync.loop rest (cap - 1) byte false out2

/-- `Unsync::read` with a caller buffer of `len` bytes: returns the bytes
placed in the buffer (the returned count is their length), the adapter
state after the call, and the unread source.  A still-stale byte is
appended as a trailing byte after the loop, without clearing the stale
flag. -/
def Unsync.read (st : UnsyncState) (src : List Nat) (len : Nat) :
    List Nat × UnsyncState × List Nat :=
  if len = 0 then
    ([], st, src)
  else
    match Unsync.loop src len st.bcache st.bstale [] with
    | (out, bcache, bstale, rest) =>
      if bstale then
        (out ++ [bcache], { bcache, bstale }, rest)
      else
        (out, { bcache, bstale }, rest)

/-- Repeated `Unsync::read` calls with a fixed buffer size until a call
returns zero bytes (the `read_to_end` pattern), concatenating the
outputs.  Fuel exhaustion is a distinct outcome. -/
def Unsync.readChunks (fuel : Nat) (st : UnsyncState) (src : List Nat)
    (len : Nat) : Ret (List Nat) :=
  match fuel with
  | 0 => .panics "out of fuel"
  | fuel + 1 =>
    match Unsync.read st src len with
    | (out, st2, rest) =>
      if out.length = 0 then
        .ok []
      else do
        let tail ← Unsync.readChunks fuel st2 rest len
        pure (out ++ tail)

/-- The claim's `sync` transform: insert `0x00` after every `0xFF` that
would otherwise precede a byte with the top bit set. -/
def sync : List Nat → List Nat
  | 0xFF :: b :: rest =>
    if 0x80 ≤ b then 0xFF :: 0x00 :: sync (b :: rest)
    else 0xFF :: sync (b :: rest)
  | b :: rest => b :: sync rest
  | [] => []

/-! Concrete frames used by the CHAP sub-frame theorems: two distinct
ID3v2.4 text frames laid out back to back. -/

/-- Raw bytes of a `TIT2` ID3v2.4 frame with a two-byte body. -/
def tit2Bytes : List Nat :=
  [84, 73, 84, 50, 0, 0, 0, 2, 0, 0, 0, 65]

/-- Raw bytes of a `TALB` ID3v2.4 frame with a two-byte body. -/
def talbBytes : List Nat :=
  [84, 65, 76, 66, 0, 0, 0, 2, 0, 0, 0, 66]

/-- The `TIT2` frame as parsed from the front of
`tit2Bytes ++ talbBytes`. -/
def tit2Frame : FrameV4 :=
  { identifier := [84, 73, 84, 50], descriptor := 2, flag_bytes := 0,
    extra_data := ⟨none, none, none⟩, frame_data := [0, 65] }

/-- The `TALB` frame as parsed from offset 12 of
`tit2Bytes ++ talbBytes`. -/
def talbFrame : FrameV4 :=
  { identifier := [84, 65, 76, 66], descriptor := 2, flag_bytes := 0,
    extra_data := ⟨none, none, none⟩, frame_data := [0, 66] }

/-- Body of a `CHAP` frame: element id `c1`, times 0/1000/0/1000, then
the two sub-frames above. -/
def chapBodyBytes : List Nat :=
  [99, 49, 0] ++
    [0, 0, 0, 0, 0, 0, 3, 232, 0, 0, 0, 0, 0, 0, 3, 232] ++
    tit2Bytes ++ talbBytes

/-- The zlib stream whose decompression is the 6-byte `TCON` content
`00 52 6F 63 6B 00` (encoding byte, "Rock", terminator). -/
def zlibRock : List Nat :=
  [120, 156, 99, 8, 202, 79, 206, 102, 0, 0, 5, 91, 1, 144]

/-!  Claim theorems. -/

/-- C1.  The claim says a body whose next bytes are not a valid frame
identifier (NUL padding) makes `FrameIter::next` return `None` silently.
On the code, no `from_slice` ever returns `Ok(None)`: the identifier
bytes fail `FrameId::try_from`, so the iterator yields one
`Err(InvalidFrameId)` item before stopping (both on ID3v2.4 and ID3v2.2
bodies of ten NUL bytes). -/
theorem C1_nul_padding_yields_error_item :
    FrameIter.items 8 .id3v24 [0, 0, 0, 0, 0, 0, 0, 0, 0, 0] =
      .ok [.failure .invalidFrameId] ∧
    FrameIter.items 8 .id3v22 [0, 0, 0, 0, 0, 0, 0, 0, 0, 0] =
      .ok [.failure .invalidFrameId] ∧
    (Ret.ok [FrameItem.failure .invalidFrameId] ≠ .ok []) := by
  decide

/-- C2.  On the scenario-1 tag body (one `TAL` frame of total size 13
exactly filling the body) the iterator yields the `TAL` frame — whose
content decodes to the Latin-1 text "Hello" — but then a spurious
`Err(IO)` item: `Slice::skip` clamps its index to `len - 1`, so advancing
by the frame's total size leaves the final byte in the buffer instead of
emptying it, and parsing that one byte fails with an I/O error.  The
claim says the frame is the only item. -/
theorem C2_exact_fill_tag_yields_spurious_error :
    FrameIter.items 8 .id3v22
        [84, 65, 76, 0, 0, 7, 0, 72, 101, 108, 108, 111, 0] =
      .ok [.frame (.v2 ⟨[84, 65, 76], 7, [0, 72, 101, 108, 108, 111, 0]⟩),
        .failure .io] ∧
    Content.decode_text_arm [0, 72, 101, 108, 108, 111, 0] =
      .ok (.text ⟨.latin1, .text (.borrowed [72, 101, 108, 108, 111])⟩) ∧
    Slice.skip [84, 65, 76, 0, 0, 7, 0, 72, 101, 108, 108, 111, 0] 13 =
      [0] := by
  decide

/-- C3.  `Decoder::decode_frame` hands `DynFrame::from_slice` the whole
underlying slice rather than the suffix at the cursor, while still
advancing the cursor by the parsed frame's total size.  On a CHAP body
whose sub-frame region holds a `TIT2` frame followed by a distinct `TALB`
frame, the sub-frame iterator therefore yields the `TIT2` frame twice:
the second `next` call re-parses the start of the region even though the
cursor sits at offset 12, where the `TALB` frame (shown parsing correctly
from that offset) lives.  The claim says each sub-frame is yielded
exactly once in file order. -/
theorem C3_chap_iter_repeats_first_subframe :
    Content.decode_chap_arm chapBodyBytes =
      .ok (.chap ⟨.borrowed [99, 49], ⟨0, 0, 1000, 1000⟩,
        .borrowed (tit2Bytes ++ talbBytes)⟩) ∧
    ChapIter.items 8 (Decoder.new (tit2Bytes ++ talbBytes)) =
      .ok [.frame (.v4 tit2Frame), .frame (.v4 tit2Frame)] ∧
    DynFrame.from_slice .id3v24 ((tit2Bytes ++ talbBytes).drop 12) =
      .ok (some (.v4 talbFrame)) ∧
    tit2Frame ≠ talbFrame := by
  decide

/-- C4.  The claim says unknown-but-valid identifiers decode to the
`Unknown` content record.  In the dispatcher, every identifier outside
the table reaches the wildcard arm, which is `panic!("Unknown Frame")`
— shown here for the syntactically valid identifiers `ZZZZ` (2.3 and 2.4)
and `ZZZ` (2.2); no arm of the dispatcher selects the `Unkn` record. -/
theorem C4_unknown_identifier_panics :
    is_frame_id [90, 90, 90, 90] = true ∧
    Content.decodeArm .id3v23 "ZZZZ" = .panicUnknown ∧
    Content.decodeArm .id3v24 "ZZZZ" = .panicUnknown ∧
    Content.decodeArm .id3v22 "ZZZ" = .panicUnknown ∧
    DispatchArm.panicUnknown ≠ .record .unkn := by
  decide

/-- C5.  The claim says `unsync (sync b) = b` with the pair elision
working across read-call buffer boundaries.  Reading
`sync [FF 80] = [FF 00 80]` through the adapter with a one-byte caller
buffer returns `[FF 00 80]`: when the buffer fills immediately after the
`FF` is written, the loop breaks before the `bcache` update, so the next
call does not recognise the `FF 00` pair.  With a two-byte buffer the
same source round-trips correctly, isolating the boundary as the
trigger. -/
theorem C5_roundtrip_fails_across_buffer_boundary :
    sync [255, 128] = [255, 0, 128] ∧
    Unsync.readChunks 8 Unsync.new (sync [255, 128]) 1 = .ok [255, 0, 128] ∧
    ([255, 0, 128] : List Nat) ≠ [255, 128] ∧
    Unsync.readChunks 8 Unsync.new (sync [255, 128]) 2 = .ok [255, 128] := by
  decide

/-- The adapter reproduces the repository's own `tests/unsync.rs` vector
when the whole input fits in one read call. -/
theorem unsync_matches_repo_test :
    Unsync.readChunks 8 Unsync.new
        [255, 0, 0, 1, 2, 255, 0, 0, 3] 64 =
      .ok [255, 0, 1, 2, 255, 0, 3] := by
  decide

/-- C10.  After a source ending in the pair `FF 00` reaches end of input,
the stale flag is never cleared: the first call returns the two bytes
(re-emitting the elided `00` as a trailing byte), and every subsequent
call returns one `00` byte again from the unchanged state — never
`Ok(0)` — so reading the stream to the end does not terminate (the
chunked reader exhausts any amount of fuel). -/
theorem C10_eof_after_pair_keeps_emitting (len : Nat) (h : 1 ≤ len) :
    Unsync.read Unsync.new [255, 0] 8 = ([255, 0], ⟨0, true⟩, []) ∧
    Unsync.read ⟨0, true⟩ [] len = ([0], ⟨0, true⟩, []) ∧
    Unsync.readChunks 5 Unsync.new [255, 0] 8 = .panics "out of fuel" := by
  refine ⟨by decide, ?_, by decide⟩
  unfold Unsync.read
  rw [if_neg (by omega)]
  simp [Unsync.loop]

theorem C10_witness :
    Unsync.read Unsync.new [255, 0] 8 = ([255, 0], ⟨0, true⟩, []) ∧
    Unsync.read ⟨0, true⟩ [] 1 = ([0], ⟨0, true⟩, []) ∧
    Unsync.readChunks 5 Unsync.new [255, 0] 8 = .panics "out of fuel" :=
  C10_eof_after_pair_keeps_emitting 1 (by norm_num)

/-- C7 counterexample.  On an input of fewer than two bytes,
`decode_utf16_bom` does not return `InvalidFrameData` as the claim says:
the source asserts `slice.len() > 1` and indexes `slice[..2]`, which
panics. -/
theorem C7_counterexample :
    decode_utf16_bom [] = .panics "assertion failed: slice.len() > 1" ∧
    decode_utf16_bom [] ≠ .err .invalidFrameData := by
  decide

/-- C7 (amended).  `decode_utf16_bom` panics (rather than returning an
error) when fewer than two bytes are available; with at least two bytes
an unrecognized BOM yields `InvalidFrameData`; surrogate errors (a lone
low surrogate anywhere, or a trailing high surrogate) yield
`InvalidFrameData`; and an input of exactly a two-byte BOM decodes to the
empty string with no error. -/
theorem C7_utf16_bom_behaviour :
    (∀ s : List Nat, s.length < 2 →
      decode_utf16_bom s = .panics "assertion failed: slice.len() > 1") ∧
    (∀ b0 b1 : Nat, ∀ rest : List Nat,
      ¬(b0 = 254 ∧ b1 = 255) → ¬(b0 = 255 ∧ b1 = 254) →
      decode_utf16_bom (b0 :: b1 :: rest) = .err .invalidFrameData) ∧
    (∀ u : Nat, ∀ rest : List Nat, 0xDC00 ≤ u → u ≤ 0xDFFF →
      decodeUtf16Units (u :: rest) = .err .invalidFrameData) ∧
    (∀ u : Nat, 0xD800 ≤ u → u ≤ 0xDBFF →
      decodeUtf16Units [u] = .err .invalidFrameData) ∧
    decode_utf16_bom [254, 255] = .ok (.owned []) ∧
    decode_utf16_bom [255, 254] = .ok (.owned []) := by
  refine ⟨?_, ?_, ?_, ?_, by decide, by decide⟩
  · intro s h
    match s with
    | [] => rfl
    | [b] => rfl
    | a :: b :: t =>
      simp at h
      omega
  · intro b0 b1 rest h1 h2
    show (if b0 = 0xFE ∧ b1 = 0xFF then _ else _) = _
    rw [if_neg h1, if_neg h2]
  · intro u rest h1 h2
    cases rest with
    | nil =>
      have e : decodeUtf16Units [u] =
          if 0xD800 ≤ u ∧ u ≤ 0xDBFF then Ret.err .invalidFrameData
          else if 0xDC00 ≤ u ∧ u ≤ 0xDFFF then Ret.err .invalidFrameData
          else Ret.bind (decodeUtf16Units []) fun tail => Ret.ok (u :: tail) :=
        rfl
      rw [e, if_neg (by omega), if_pos ⟨h1, h2⟩]
    | cons l t =>
      have e : decodeUtf16Units (u :: l :: t) =
          if 0xD800 ≤ u ∧ u ≤ 0xDBFF then
            if 0xDC00 ≤ l ∧ l ≤ 0xDFFF then
              Ret.bind (decodeUtf16Units t) fun tail =>
                Ret.ok ((0x10000 + ((u - 0xD800) <<< 10) + (l - 0xDC00)) :: tail)
            else Ret.err .invalidFrameData
          else if 0xDC00 ≤ u ∧ u ≤ 0xDFFF then Ret.err .invalidFrameData
          else Ret.bind (decodeUtf16Units (l :: t)) fun tail =>
            Ret.ok (u :: tail) :=
        rfl
      rw [e, if_neg (by omega), if_pos ⟨h1, h2⟩]
  · intro u h1 h2
    have e : decodeUtf16Units [u] =
        if 0xD800 ≤ u ∧ u ≤ 0xDBFF then Ret.err .invalidFrameData
        else if 0xDC00 ≤ u ∧ u ≤ 0xDFFF then Ret.err .invalidFrameData
        else Ret.bind (decodeUtf16Units []) fun tail => Ret.ok (u :: tail) :=
      rfl
    rw [e, if_pos ⟨h1, h2⟩]

theorem C7_witness :
    decode_utf16_bom [65] = .panics "assertion failed: slice.len() > 1" ∧
    decode_utf16_bom [0, 65] = .err .invalidFrameData ∧
    decodeUtf16Units [56320] = .err .invalidFrameData ∧
    decodeUtf16Units [55296] = .err .invalidFrameData :=
  ⟨C7_utf16_bom_behaviour.1 [65] (by norm_num),
    C7_utf16_bom_behaviour.2.1 0 65 [] (by norm_num) (by norm_num),
    C7_utf16_bom_behaviour.2.2.1 56320 [] (by norm_num) (by norm_num),
    C7_utf16_bom_behaviour.2.2.2.1 55296 (by norm_num) (by norm_num)⟩

/-- C8 counterexample.  On the scenario-6 compressed `TCON` frame,
`Content::decode2` panics in both configurations: without the `zlib`
feature `decompress` is an unconditional `panic!` (not a returned error
value), and even with a working decompressor the final
`Content::into_owned` is a stub `panic!`, so the text "Rock" is never
returned. -/
theorem C8_counterexample :
    Content.decode2_TCON_v23 decompress_nozlib zlibRock 6 =
      .panics "Enable `zlib` feature to use ZLIB decompression." ∧
    Content.decode2_TCON_v23 (fun _ _ => .ok [0, 82, 111, 99, 107, 0])
        zlibRock 6 =
      .panics "Content::into_owned" := by
  decide

/-- C8 (amended).  With a decompressor that inflates the scenario-6
stream to `00 52 6F 63 6B 00`, the inner `Content::decode` does produce
the Latin-1 text "Rock", but `decode2` then panics in the stubbed
`Content::into_owned` instead of returning it; without a decompressor,
`decode2` panics in `decompress` rather than returning an error value. -/
theorem C8_compressed_frame_behaviour
    (dec : List Nat → Option Nat → Ret (List Nat))
    (h : dec zlibRock (some 6) = .ok [0, 82, 111, 99, 107, 0]) :
    Content.decode_text_arm [0, 82, 111, 99, 107, 0] =
      .ok (.text ⟨.latin1, .text (.borrowed [82, 111, 99, 107])⟩) ∧
    Content.decode2_TCON_v23 dec zlibRock 6 =
      .panics "Content::into_owned" ∧
    Content.decode2_TCON_v23 decompress_nozlib zlibRock 6 =
      .panics "Enable `zlib` feature to use ZLIB decompression." := by
  refine ⟨by decide, ?_, by decide⟩
  unfold Content.decode2_TCON_v23
  show Ret.bind (dec zlibRock (some 6)) _ = _
  rw [h]
  rfl

theorem C8_witness :
    Content.decode_text_arm [0, 82, 111, 99, 107, 0] =
      .ok (.text ⟨.latin1, .text (.borrowed [82, 111, 99, 107])⟩) ∧
    Content.decode2_TCON_v23 (fun _ _ => .ok [0, 82, 111, 99, 107, 0])
        zlibRock 6 =
      .panics "Content::into_owned" ∧
    Content.decode2_TCON_v23 decompress_nozlib zlibRock 6 =
      .panics "Enable `zlib` feature to use ZLIB decompression." :=
  C8_compressed_frame_behaviour (fun _ _ => .ok [0, 82, 111, 99, 107, 0]) rfl

/-! Idempotence helpers for ownership promotion. -/

theorem cowStr_into_owned_idem (s : CowStr) :
    s.into_owned.into_owned = s.into_owned := by
  cases s <;> rfl

theorem cowSlice_into_owned_idem (s : CowSlice) :
    s.into_owned.into_owned = s.into_owned := by
  cases s <;> rfl

theorem textContent_into_owned_idem (t : TextContent) :
    t.into_owned.into_owned = t.into_owned := by
  cases t with
  | text s => cases s <;> rfl
  | list l =>
    simp only [TextContent.into_owned, List.map_map, Function.comp_def]
    rw [List.map_congr_left fun s _ => cowStr_into_owned_idem s]

theorem text_into_owned_idem (t : Text) :
    t.into_owned.into_owned = t.into_owned := by
  simp [Text.into_owned, textContent_into_owned_idem]

theorem chap_into_owned_idem (c : Chap) :
    c.into_owned.into_owned = c.into_owned := by
  simp [Chap.into_owned, ChapTime.into_owned, cowStr_into_owned_idem,
    cowSlice_into_owned_idem]

theorem unkn_into_owned_idem (u : Unkn) :
    u.into_owned.into_owned = u.into_owned := by
  simp [Unkn.into_owned, cowSlice_into_owned_idem]

/-- C9 counterexample.  `Content::into_owned` is not defined on any value
of the `Content` sum: the source body is the stub
`panic!("Content::into_owned")`, shown here on a concrete value. -/
theorem C9_counterexample :
    Content.into_owned (.unkn ⟨.borrowed []⟩) =
      .panics "Content::into_owned" := by
  rfl

theorem aenc_into_owned_idem (x : Aenc) :
    x.into_owned.into_owned = x.into_owned := by
  simp [Aenc.into_owned, natIntoOwned, Encoding.into_owned, Timestamp.into_owned,
    Language.into_owned, Date.into_owned, ImgType.into_owned,
    PicType.into_owned, ReceivedAs.into_owned, ContentType.into_owned,
    cowStr_into_owned_idem, cowSlice_into_owned_idem]

theorem apic_into_owned_idem (x : Apic) :
    x.into_owned.into_owned = x.into_owned := by
  simp [Apic.into_owned, natIntoOwned, Encoding.into_owned, Timestamp.into_owned,
    Language.into_owned, Date.into_owned, ImgType.into_owned,
    PicType.into_owned, ReceivedAs.into_owned, ContentType.into_owned,
    cowStr_into_owned_idem, cowSlice_into_owned_idem]

theorem atxt_into_owned_idem (x : Atxt) :
    x.into_owned.into_owned = x.into_owned := by
  simp [Atxt.into_owned, natIntoOwned, Encoding.into_owned, Timestamp.into_owned,
    Language.into_owned, Date.into_owned, ImgType.into_owned,
    PicType.into_owned, ReceivedAs.into_owned, ContentType.into_owned,
    cowStr_into_owned_idem, cowSlice_into_owned_idem]

theorem comm_into_owned_idem (x : Comm) :
    x.into_owned.into_owned = x.into_owned := by
  simp [Comm.into_owned, natIntoOwned, Encoding.into_owned, Timestamp.into_owned,
    Language.into_owned, Date.into_owned, ImgType.into_owned,
    PicType.into_owned, ReceivedAs.into_owned, ContentType.into_owned,
    cowStr_into_owned_idem, cowSlice_into_owned_idem]

theorem comr_into_owned_idem (x : Comr) :
    x.into_owned.into_owned = x.into_owned := by
  simp [Comr.into_owned, natIntoOwned, Encoding.into_owned, Timestamp.into_owned,
    Language.into_owned, Date.into_owned, ImgType.into_owned,
    PicType.into_owned, ReceivedAs.into_owned, ContentType.into_owned,
    cowStr_into_owned_idem, cowSlice_into_owned_idem]

theorem ctoc_into_owned_idem (x : Ctoc) :
    x.into_owned.into_owned = x.into_owned := by
  simp [Ctoc.into_owned, natIntoOwned, Encoding.into_owned, Timestamp.into_owned,
    Language.into_owned, Date.into_owned, ImgType.into_owned,
    PicType.into_owned, ReceivedAs.into_owned, ContentType.into_owned,
    cowStr_into_owned_idem, cowSlice_into_owned_idem]

theorem encr_into_owned_idem (x : Encr) :
    x.into_owned.into_owned = x.into_owned := by
  simp [Encr.into_owned, natIntoOwned, Encoding.into_owned, Timestamp.into_owned,
    Language.into_owned, Date.into_owned, ImgType.into_owned,
    PicType.into_owned, ReceivedAs.into_owned, ContentType.into_owned,
    cowStr_into_owned_idem, cowSlice_into_owned_idem]

theorem equa_into_owned_idem (x : Equa) :
    x.into_owned.into_owned = x.into_owned := by
  simp [Equa.into_owned, natIntoOwned, Encoding.into_owned, Timestamp.into_owned,
    Language.into_owned, Date.into_owned, ImgType.into_owned,
    PicType.into_owned, ReceivedAs.into_owned, ContentType.into_owned,
    cowStr_into_owned_idem, cowSlice_into_owned_idem]

theorem etco_into_owned_idem (x : Etco) :
    x.into_owned.into_owned = x.into_owned := by
  simp [Etco.into_owned, natIntoOwned, Encoding.into_owned, Timestamp.into_owned,
    Language.into_owned, Date.into_owned, ImgType.into_owned,
    PicType.into_owned, ReceivedAs.into_owned, ContentType.into_owned,
    cowStr_into_owned_idem, cowSlice_into_owned_idem]

theorem geob_into_owned_idem (x : Geob) :
    x.into_owned.into_owned = x.into_owned := by
  simp [Geob.into_owned, natIntoOwned, Encoding.into_owned, Timestamp.into_owned,
    Language.into_owned, Date.into_owned, ImgType.into_owned,
    PicType.into_owned, ReceivedAs.into_owned, ContentType.into_owned,
    cowStr_into_owned_idem, cowSlice_into_owned_idem]

theorem grid_into_owned_idem (x : Grid) :
    x.into_owned.into_owned = x.into_owned := by
  simp [Grid.into_owned, natIntoOwned, Encoding.into_owned, Timestamp.into_owned,
    Language.into_owned, Date.into_owned, ImgType.into_owned,
    PicType.into_owned, ReceivedAs.into_owned, ContentType.into_owned,
    cowStr_into_owned_idem, cowSlice_into_owned_idem]

theorem ipls_into_owned_idem (x : Ipls) :
    x.into_owned.into_owned = x.into_owned := by
  simp [Ipls.into_owned, natIntoOwned, Encoding.into_owned, Timestamp.into_owned,
    Language.into_owned, Date.into_owned, ImgType.into_owned,
    PicType.into_owned, ReceivedAs.into_owned, ContentType.into_owned,
    cowStr_into_owned_idem, cowSlice_into_owned_idem]

theorem link_into_owned_idem (x : Link) :
    x.into_owned.into_owned = x.into_owned := by
  simp [Link.into_owned, natIntoOwned, Encoding.into_owned, Timestamp.into_owned,
    Language.into_owned, Date.into_owned, ImgType.into_owned,
    PicType.into_owned, ReceivedAs.into_owned, ContentType.into_owned,
    cowStr_into_owned_idem, cowSlice_into_owned_idem]

theorem mcdi_into_owned_idem (x : Mcdi) :
    x.into_owned.into_owned = x.into_owned := by
  simp [Mcdi.into_owned, natIntoOwned, Encoding.into_owned, Timestamp.into_owned,
    Language.into_owned, Date.into_owned, ImgType.into_owned,
    PicType.into_owned, ReceivedAs.into_owned, ContentType.into_owned,
    cowStr_into_owned_idem, cowSlice_into_owned_idem]

theorem mllt_into_owned_idem (x : Mllt) :
    x.into_owned.into_owned = x.into_owned := by
  simp [Mllt.into_owned, natIntoOwned, Encoding.into_owned, Timestamp.into_owned,
    Language.into_owned, Date.into_owned, ImgType.into_owned,
    PicType.into_owned, ReceivedAs.into_owned, ContentType.into_owned,
    cowStr_into_owned_idem, cowSlice_into_owned_idem]

theorem owne_into_owned_idem (x : Owne) :
    x.into_owned.into_owned = x.into_owned := by
  simp [Owne.into_owned, natIntoOwned, Encoding.into_owned, Timestamp.into_owned,
    Language.into_owned, Date.into_owned, ImgType.into_owned,
    PicType.into_owned, ReceivedAs.into_owned, ContentType.into_owned,
    cowStr_into_owned_idem, cowSlice_into_owned_idem]

theorem pcnt_into_owned_idem (x : Pcnt) :
    x.into_owned.into_owned = x.into_owned := by
  simp [Pcnt.into_owned, natIntoOwned, Encoding.into_owned, Timestamp.into_owned,
    Language.into_owned, Date.into_owned, ImgType.into_owned,
    PicType.into_owned, ReceivedAs.into_owned, ContentType.into_owned,
    cowStr_into_owned_idem, cowSlice_into_owned_idem]

theorem popm_into_owned_idem (x : Popm) :
    x.into_owned.into_owned = x.into_owned := by
  simp [Popm.into_owned, natIntoOwned, Encoding.into_owned, Timestamp.into_owned,
    Language.into_owned, Date.into_owned, ImgType.into_owned,
    PicType.into_owned, ReceivedAs.into_owned, ContentType.into_owned,
    cowStr_into_owned_idem, cowSlice_into_owned_idem]

theorem poss_into_owned_idem (x : Poss) :
    x.into_owned.into_owned = x.into_owned := by
  simp [Poss.into_owned, natIntoOwned, Encoding.into_owned, Timestamp.into_owned,
    Language.into_owned, Date.into_owned, ImgType.into_owned,
    PicType.into_owned, ReceivedAs.into_owned, ContentType.into_owned,
    cowStr_into_owned_idem, cowSlice_into_owned_idem]

theorem priv_into_owned_idem (x : Priv) :
    x.into_owned.into_owned = x.into_owned := by
  simp [Priv.into_owned, natIntoOwned, Encoding.into_owned, Timestamp.into_owned,
    Language.into_owned, Date.into_owned, ImgType.into_owned,
    PicType.into_owned, ReceivedAs.into_owned, ContentType.into_owned,
    cowStr_into_owned_idem, cowSlice_into_owned_idem]

theorem rbuf_into_owned_idem (x : Rbuf) :
    x.into_owned.into_owned = x.into_owned := by
  simp [Rbuf.into_owned, natIntoOwned, Encoding.into_owned, Timestamp.into_owned,
    Language.into_owned, Date.into_owned, ImgType.into_owned,
    PicType.into_owned, ReceivedAs.into_owned, ContentType.into_owned,
    cowStr_into_owned_idem, cowSlice_into_owned_idem]

theorem rva2_into_owned_idem (x : Rva2) :
    x.into_owned.into_owned = x.into_owned := by
  simp [Rva2.into_owned, natIntoOwned, Encoding.into_owned, Timestamp.into_owned,
    Language.into_owned, Date.into_owned, ImgType.into_owned,
    PicType.into_owned, ReceivedAs.into_owned, ContentType.into_owned,
    cowStr_into_owned_idem, cowSlice_into_owned_idem]

theorem rvad_into_owned_idem (x : Rvad) :
    x.into_owned.into_owned = x.into_owned := by
  simp [Rvad.into_owned, natIntoOwned, Encoding.into_owned, Timestamp.into_owned,
    Language.into_owned, Date.into_owned, ImgType.into_owned,
    PicType.into_owned, ReceivedAs.into_owned, ContentType.into_owned,
    cowStr_into_owned_idem, cowSlice_into_owned_idem]

theorem rvrb_into_owned_idem (x : Rvrb) :
    x.into_owned.into_owned = x.into_owned := by
  simp [Rvrb.into_owned, natIntoOwned, Encoding.into_owned, Timestamp.into_owned,
    Language.into_owned, Date.into_owned, ImgType.into_owned,
    PicType.into_owned, ReceivedAs.into_owned, ContentType.into_owned,
    cowStr_into_owned_idem, cowSlice_into_owned_idem]

theorem sylt_into_owned_idem (x : Sylt) :
    x.into_owned.into_owned = x.into_owned := by
  simp [Sylt.into_owned, natIntoOwned, Encoding.into_owned, Timestamp.into_owned,
    Language.into_owned, Date.into_owned, ImgType.into_owned,
    PicType.into_owned, ReceivedAs.into_owned, ContentType.into_owned,
    cowStr_into_owned_idem, cowSlice_into_owned_idem]

theorem sytc_into_owned_idem (x : Sytc) :
    x.into_owned.into_owned = x.into_owned := by
  simp [Sytc.into_owned, natIntoOwned, Encoding.into_owned, Timestamp.into_owned,
    Language.into_owned, Date.into_owned, ImgType.into_owned,
    PicType.into_owned, ReceivedAs.into_owned, ContentType.into_owned,
    cowStr_into_owned_idem, cowSlice_into_owned_idem]

theorem txxx_into_owned_idem (x : Txxx) :
    x.into_owned.into_owned = x.into_owned := by
  simp [Txxx.into_owned, natIntoOwned, Encoding.into_owned, Timestamp.into_owned,
    Language.into_owned, Date.into_owned, ImgType.into_owned,
    PicType.into_owned, ReceivedAs.into_owned, ContentType.into_owned,
    cowStr_into_owned_idem, cowSlice_into_owned_idem]

theorem ufid_into_owned_idem (x : Ufid) :
    x.into_owned.into_owned = x.into_owned := by
  simp [Ufid.into_owned, natIntoOwned, Encoding.into_owned, Timestamp.into_owned,
    Language.into_owned, Date.into_owned, ImgType.into_owned,
    PicType.into_owned, ReceivedAs.into_owned, ContentType.into_owned,
    cowStr_into_owned_idem, cowSlice_into_owned_idem]

theorem user_into_owned_idem (x : User) :
    x.into_owned.into_owned = x.into_owned := by
  simp [User.into_owned, natIntoOwned, Encoding.into_owned, Timestamp.into_owned,
    Language.into_owned, Date.into_owned, ImgType.into_owned,
    PicType.into_owned, ReceivedAs.into_owned, ContentType.into_owned,
    cowStr_into_owned_idem, cowSlice_into_owned_idem]

theorem uslt_into_owned_idem (x : Uslt) :
    x.into_owned.into_owned = x.into_owned := by
  simp [Uslt.into_owned, natIntoOwned, Encoding.into_owned, Timestamp.into_owned,
    Language.into_owned, Date.into_owned, ImgType.into_owned,
    PicType.into_owned, ReceivedAs.into_owned, ContentType.into_owned,
    cowStr_into_owned_idem, cowSlice_into_owned_idem]

theorem wurl_into_owned_idem (x : Wurl) :
    x.into_owned.into_owned = x.into_owned := by
  simp [Wurl.into_owned, natIntoOwned, Encoding.into_owned, Timestamp.into_owned,
    Language.into_owned, Date.into_owned, ImgType.into_owned,
    PicType.into_owned, ReceivedAs.into_owned, ContentType.into_owned,
    cowStr_into_owned_idem, cowSlice_into_owned_idem]

theorem wxxx_into_owned_idem (x : Wxxx) :
    x.into_owned.into_owned = x.into_owned := by
  simp [Wxxx.into_owned, natIntoOwned, Encoding.into_owned, Timestamp.into_owned,
    Language.into_owned, Date.into_owned, ImgType.into_owned,
    PicType.into_owned, ReceivedAs.into_owned, ContentType.into_owned,
    cowStr_into_owned_idem, cowSlice_into_owned_idem]

/-- C9 (amended).  Ownership promotion is total and idempotent on every
frame record and on every container of strings or bytes within one
(`Cow` strings and slices, the `Option` and `Vec` lifts, and all of the
frame-content records embedded above); only on the `Content` sum type
itself is `into_owned` a stub that panics instead of being defined. -/
theorem C9_into_owned_idempotent :
    (∀ s : CowStr, s.into_owned.into_owned = s.into_owned) ∧
    (∀ s : CowSlice, s.into_owned.into_owned = s.into_owned) ∧
    (∀ o : Option CowStr,
      Option.into_owned CowStr.into_owned
          (Option.into_owned CowStr.into_owned o) =
        Option.into_owned CowStr.into_owned o) ∧
    (∀ l : List CowStr,
      List.into_owned CowStr.into_owned
          (List.into_owned CowStr.into_owned l) =
        List.into_owned CowStr.into_owned l) ∧
    (∀ t : TextContent, t.into_owned.into_owned = t.into_owned) ∧
    (∀ t : Text, t.into_owned.into_owned = t.into_owned) ∧
    (∀ c : Chap, c.into_owned.into_owned = c.into_owned) ∧
    (∀ u : Unkn, u.into_owned.into_owned = u.into_owned) ∧
    (∀ x : Aenc, x.into_owned.into_owned = x.into_owned) ∧
    (∀ x : Apic, x.into_owned.into_owned = x.into_owned) ∧
    (∀ x : Atxt, x.into_owned.into_owned = x.into_owned) ∧
    (∀ x : Comm, x.into_owned.into_owned = x.into_owned) ∧
    (∀ x : Comr, x.into_owned.into_owned = x.into_owned) ∧
    (∀ x : Ctoc, x.into_owned.into_owned = x.into_owned) ∧
    (∀ x : Encr, x.into_owned.into_owned = x.into_owned) ∧
    (∀ x : Equa, x.into_owned.into_owned = x.into_owned) ∧
    (∀ x : Etco, x.into_owned.into_owned = x.into_owned) ∧
    (∀ x : Geob, x.into_owned.into_owned = x.into_owned) ∧
    (∀ x : Grid, x.into_owned.into_owned = x.into_owned) ∧
    (∀ x : Ipls, x.into_owned.into_owned = x.into_owned) ∧
    (∀ x : Link, x.into_owned.into_owned = x.into_owned) ∧
    (∀ x : Mcdi, x.into_owned.into_owned = x.into_owned) ∧
    (∀ x : Mllt, x.into_owned.into_owned = x.into_owned) ∧
    (∀ x : Owne, x.into_owned.into_owned = x.into_owned) ∧
    (∀ x : Pcnt, x.into_owned.into_owned = x.into_owned) ∧
    (∀ x : Popm, x.into_owned.into_owned = x.into_owned) ∧
    (∀ x : Poss, x.into_owned.into_owned = x.into_owned) ∧
    (∀ x : Priv, x.into_owned.into_owned = x.into_owned) ∧
    (∀ x : Rbuf, x.into_owned.into_owned = x.into_owned) ∧
    (∀ x : Rva2, x.into_owned.into_owned = x.into_owned) ∧
    (∀ x : Rvad, x.into_owned.into_owned = x.into_owned) ∧
    (∀ x : Rvrb, x.into_owned.into_owned = x.into_owned) ∧
    (∀ x : Sylt, x.into_owned.into_owned = x.into_owned) ∧
    (∀ x : Sytc, x.into_owned.into_owned = x.into_owned) ∧
    (∀ x : Txxx, x.into_owned.into_owned = x.into_owned) ∧
    (∀ x : Ufid, x.into_owned.into_owned = x.into_owned) ∧
    (∀ x : User, x.into_owned.into_owned = x.into_owned) ∧
    (∀ x : Uslt, x.into_owned.into_owned = x.into_owned) ∧
    (∀ x : Wurl, x.into_owned.into_owned = x.into_owned) ∧
    (∀ x : Wxxx, x.into_owned.into_owned = x.into_owned) ∧
    (∀ c : Content, Content.into_owned c = .panics "Content::into_owned") := by
  refine ⟨cowStr_into_owned_idem, cowSlice_into_owned_idem, ?_, ?_,
    textContent_into_owned_idem, text_into_owned_idem, chap_into_owned_idem,
    unkn_into_owned_idem,
    aenc_into_owned_idem,
    apic_into_owned_idem,
    atxt_into_owned_idem,
    comm_into_owned_idem,
    comr_into_owned_idem,
    ctoc_into_owned_idem,
    encr_into_owned_idem,
    equa_into_owned_idem,
    etco_into_owned_idem,
    geob_into_owned_idem,
    grid_into_owned_idem,
    ipls_into_owned_idem,
    link_into_owned_idem,
    mcdi_into_owned_idem,
    mllt_into_owned_idem,
    owne_into_owned_idem,
    pcnt_into_owned_idem,
    popm_into_owned_idem,
    poss_into_owned_idem,
    priv_into_owned_idem,
    rbuf_into_owned_idem,
    rva2_into_owned_idem,
    rvad_into_owned_idem,
    rvrb_into_owned_idem,
    sylt_into_owned_idem,
    sytc_into_owned_idem,
    txxx_into_owned_idem,
    ufid_into_owned_idem,
    user_into_owned_idem,
    uslt_into_owned_idem,
    wurl_into_owned_idem,
    wxxx_into_owned_idem,
    fun _ => rfl⟩
  · intro o
    cases o with
    | none => rfl
    | some s => simp [Option.into_owned, cowStr_into_owned_idem]
  · intro l
    simp only [List.into_owned, List.map_map, Function.comp_def]
    rw [List.map_congr_left fun s _ => cowStr_into_owned_idem s]

end Errai